import Mathlib

/-!
Verification development for the LDM 3D-printing Grasshopper plugin
(jdvargas12/LDM-3DP-Grasshopper-Plugin).

The repository contains three generations of a G-code generator
(`v240720/G_Code_Generation_240720.py`, `v240811/G_Code_Generation_240811.py`,
`v241001/02_G_Code_Generation_LDM_241001.py`), a path optimizer
(`v240811/01_Printing_Path_Optimizer_240811.py`) and a file-export component.
The Python sources are shallowly embedded here:

* floating-point numbers are idealised as exact rationals (`ℚ`);
* `Rhino.Geometry.Point3d` becomes the structure `Pt`;
* `Point3d.DistanceTo` is the Euclidean distance, whose value is irrational in
  general.  The path optimizer only ever *compares* distances measured from a
  common point, and squaring is strictly monotone on nonnegative reals, so the
  optimizer is embedded with the squared distance `dist2`, which stays in `ℚ`
  and makes exactly the same comparisons as the source.  The G-code generators
  only *accumulate* distances, so they are embedded generically over a
  distance function `d : Pt → Pt → ℚ`; every theorem about them holds for
  every nonnegative `d`, in particular for the Euclidean distance.  Witnesses
  instantiate `d` with the squared distance `dist2`, which is nonnegative and
  kernel-computable;
* the external call `Curve.DivideByLength(step, True)` is embedded as a field
  `divPts` of the curve datum holding either `none` (the call failed and the
  Python code runs `continue`) or `some ps` (the sample points `curve.PointAt t`
  for the returned parameters).  Per the RhinoCommon documentation, with
  `includeEnds=True` a successful call includes the parameter of the curve
  start, so `ps` then begins with the curve's start point;
* emitted G-code text lines become the inductive type `GLine`; the fixed
  decimal formatting of the f-strings is idealised away (values kept exact).
-/

namespace LDM

/-- A 3D point with rational coordinates, modelling `Rhino.Geometry.Point3d`
(float coordinates idealised as exact rationals). -/
structure Pt where
  x : ℚ
  y : ℚ
  z : ℚ
deriving DecidableEq

instance : Inhabited Pt := ⟨⟨0, 0, 0⟩⟩

/-- Squared Euclidean distance between two points.  `Point3d.DistanceTo` is
`Real.sqrt (dist2 p q)`; all comparisons of distances in the optimizer are
equivalent to the same comparisons of `dist2` values. -/
def dist2 (p q : Pt) : ℚ :=
  (p.x - q.x) ^ 2 + (p.y - q.y) ^ 2 + (p.z - q.z) ^ 2

theorem dist2_nonneg (p q : Pt) : 0 ≤ dist2 p q := by
  unfold dist2
  positivity

/-- Python's `int(...)` applied to a float: truncation toward zero. -/
def pyInt (q : ℚ) : ℤ :=
  if q < 0 then ⌈q⌉ else ⌊q⌋

theorem pyInt_eq_floor {q : ℚ} (h : 0 ≤ q) : pyInt q = ⌊q⌋ := by
  unfold pyInt
  rw [if_neg (not_lt.mpr h)]

namespace Opt

/-!
Embedding of `v240811/01_Printing_Path_Optimizer_240811.py`,
`sort_curves_nearest_neighbor` (lines 24-68).  The optimizer touches a curve
only through `PointAtStart`, `PointAtEnd` and `Reverse`, so a curve is
embedded as its ordered pair of endpoints.
-/

/-- A curve as seen by the path optimizer: its start and end points. -/
structure OCurve where
  s : Pt
  e : Pt
deriving DecidableEq

instance : Inhabited OCurve := ⟨⟨default, default⟩⟩

/-- `curve.Reverse()`: swap the start/end roles. -/
def OCurve.reverse (c : OCurve) : OCurve := ⟨c.e, c.s⟩

/-- One `for i, curve in enumerate(unvisited)` scan of the source (lines 34-40
and 52-58): thread the running best `(closest_curve_index, closest_distance,
flip)` through the remaining curves, starting the index count at `i`.  The
accumulator is `none` as long as no curve has been seen (`closest_distance`
is `inf`, so the first curve always updates it); `flip` is recorded exactly
when the minimum is updated, as `d_start > d_end`.  Distances are compared in
squared form (see `dist2`). -/
def scanFrom (p : Pt) : Nat → Option (Nat × ℚ × Bool) → List OCurve →
    Option (Nat × ℚ × Bool)
  | _, acc, [] => acc
  | i, acc, c :: rest =>
    let ds := dist2 p c.s
    let de := dist2 p c.e
    let acc2 :=
      match acc with
      | none => some (i, min ds de, decide (de < ds))
      | some (j, b, f) =>
        if min ds de < b then some (i, min ds de, decide (de < ds))
        else some (j, b, f)
    scanFrom p (i + 1) acc2 rest

/-- The full scan over `unvisited` from the current reference point. -/
def selectClosest (p : Pt) (l : List OCurve) : Option (Nat × ℚ × Bool) :=
  scanFrom p 0 none l

/-- Apply the recorded `flip` decision (source lines 43-44 and 61-62). -/
def orient (cb : OCurve × Bool) : OCurve :=
  if cb.2 then cb.1.reverse else cb.1

/-- The nearest-neighbour loop with explicit fuel.  The source runs the scan
once before the `while` loop and then identically inside it; both rounds are
the single recursive step here: select, optionally reverse, pop
(`List.eraseIdx`), advance the reference point to the chosen curve's end.
The fuel starts at the list length and never runs out, since `eraseIdx`
shortens the list by one each step. -/
def sortAux (p : Pt) : Nat → List OCurve → List OCurve
  | 0, _ => []
  | Nat.succ fuel, l =>
    match selectClosest p l with
    | none => []
    | some (i, _, f) =>
      let c := orient (l.getD i default, f)
      c :: sortAux c.e fuel (l.eraseIdx i)

/-- `sort_curves_nearest_neighbor(curves, start_point)` (source lines 24-68).
An empty input returns `[]` (line 25-26). -/
def sort_curves_nearest_neighbor (l : List OCurve) (p : Pt) : List OCurve :=
  sortAux p l.length l

/-- What the scan guarantees about its winner: a position inside the list and
the `flip` flag of exactly that curve. -/
def SelGood (p : Pt) (l : List OCurve) (t : Nat × ℚ × Bool) : Prop :=
  t.1 < l.length ∧
    t.2.2 = decide (dist2 p (l.getD t.1 default).e < dist2 p (l.getD t.1 default).s)

theorem scanFrom_isSome (p : Pt) :
    ∀ (rest : List OCurve) (i : Nat) (acc : Option (Nat × ℚ × Bool)),
      acc.isSome = true ∨ rest ≠ [] → (scanFrom p i acc rest).isSome = true := by
  intro rest
  induction rest with
  | nil =>
    intro i acc h
    rcases h with h | h
    · simpa [scanFrom] using h
    · exact absurd rfl h
  | cons c cs ih =>
    intro i acc _
    show (scanFrom p (i + 1) _ cs).isSome = true
    apply ih
    left
    cases acc with
    | none => rfl
    | some t =>
      obtain ⟨j, b, f⟩ := t
      by_cases hlt : min (dist2 p c.s) (dist2 p c.e) < b <;> simp [hlt]

theorem scanFrom_good (p : Pt) (l : List OCurve) :
    ∀ (rest : List OCurve) (i0 : Nat) (acc : Option (Nat × ℚ × Bool)),
      (∀ t, acc = some t → SelGood p l t) →
      (∀ k c, rest.get? k = some c → l.get? (i0 + k) = some c) →
      ∀ t, scanFrom p i0 acc rest = some t → SelGood p l t := by
  intro rest
  induction rest with
  | nil =>
    intro i0 acc hacc _ t ht
    exact hacc t ht
  | cons c cs ih =>
    intro i0 acc hacc hrest t ht
    have hc : l.get? i0 = some c := by simpa using hrest 0 c rfl
    have hc' : l.getD i0 default = c := by
      simp [List.getD_eq_getElem?_getD, ← List.get?_eq_getElem?, hc]
    have hi0 : i0 < l.length := (List.get?_eq_some.mp hc).1
    refine ih (i0 + 1) _ ?_ ?_ t ht
    · intro u hu
      cases acc with
      | none =>
        cases hu
        exact ⟨hi0, by rw [hc']⟩
      | some v =>
        obtain ⟨j, b, f⟩ := v
        have hu2 : (if min (dist2 p c.s) (dist2 p c.e) < b then
              some (i0, min (dist2 p c.s) (dist2 p c.e),
                decide (dist2 p c.e < dist2 p c.s))
            else some (j, b, f)) = some u := hu
        by_cases hlt : min (dist2 p c.s) (dist2 p c.e) < b
        · rw [if_pos hlt] at hu2
          cases hu2
          exact ⟨hi0, by rw [hc']⟩
        · rw [if_neg hlt] at hu2
          cases hu2
          exact hacc _ rfl
    · intro k d hk
      have := hrest (k + 1) d (by simpa using hk)
      simpa [Nat.add_assoc, Nat.add_comm 1 k] using this

theorem selectClosest_good (p : Pt) (l : List OCurve) :
    ∀ t, selectClosest p l = some t → SelGood p l t := by
  intro t ht
  refine scanFrom_good p l l 0 none ?_ ?_ t ht
  · intro u hu
    cases hu
  · intro k c hk
    simpa using hk

theorem selectClosest_isSome (p : Pt) (l : List OCurve) (h : l ≠ []) :
    (selectClosest p l).isSome = true :=
  scanFrom_isSome p l 0 none (Or.inr h)

theorem selectClosest_nil (p : Pt) : selectClosest p [] = none := rfl

theorem sortAux_fuel :
    ∀ (n m : Nat) (q : Pt) (l : List OCurve), l.length ≤ n → l.length ≤ m →
      sortAux q n l = sortAux q m l := by
  intro n
  induction n with
  | zero =>
    intro m q l hn _
    have hl : l = [] := List.length_eq_zero.mp (Nat.le_zero.mp hn)
    subst hl
    cases m with
    | zero => rfl
    | succ m => simp [sortAux, selectClosest_nil]
  | succ n ih =>
    intro m q l hn hm
    cases l with
    | nil =>
      cases m with
      | zero => rfl
      | succ m => simp [sortAux, selectClosest_nil]
    | cons a l' =>
      cases m with
      | zero => exact absurd hm (by simp)
      | succ m =>
        show sortAux _ (n + 1) _ = sortAux _ (m + 1) _
        rw [sortAux, sortAux]
        rcases hsel : selectClosest q (a :: l') with _ | ⟨i, b, f⟩
        · rfl
        · have hgood := selectClosest_good q (a :: l') _ hsel
          have hi : i < (a :: l').length := hgood.1
          have hlen : ((a :: l').eraseIdx i).length = (a :: l').length - 1 := by
            rw [List.length_eraseIdx, if_pos hi]
          have h1 : ((a :: l').eraseIdx i).length ≤ n := by
            rw [hlen]
            simp only [List.length_cons] at hn ⊢
            omega
          have h2 : ((a :: l').eraseIdx i).length ≤ m := by
            rw [hlen]
            simp only [List.length_cons] at hm ⊢
            omega
          show orient ((a :: l').getD i default, f) ::
              sortAux (orient ((a :: l').getD i default, f)).e n
                ((a :: l').eraseIdx i) =
            orient ((a :: l').getD i default, f) ::
              sortAux (orient ((a :: l').getD i default, f)).e m
                ((a :: l').eraseIdx i)
          rw [ih m _ _ h1 h2]

theorem sortNN_nil (p : Pt) : sort_curves_nearest_neighbor [] p = [] := rfl

theorem sortNN_cons (p : Pt) (l : List OCurve) (i : Nat) (b : ℚ) (f : Bool)
    (hsel : selectClosest p l = some (i, b, f)) :
    sort_curves_nearest_neighbor l p =
      orient (l.getD i default, f) ::
        sort_curves_nearest_neighbor (l.eraseIdx i)
          (orient (l.getD i default, f)).e := by
  have hgood := selectClosest_good p l _ hsel
  have hi : i < l.length := hgood.1
  have hl : l ≠ [] := by
    intro h
    subst h
    simp at hi
  obtain ⟨k, hk⟩ : ∃ k, l.length = k + 1 :=
    ⟨l.length - 1, (Nat.succ_pred_eq_of_pos (List.length_pos.mpr hl)).symm⟩
  have hlen : (l.eraseIdx i).length = k := by
    rw [List.length_eraseIdx, if_pos hi, hk]
    omega
  unfold sort_curves_nearest_neighbor
  rw [hk]
  rw [sortAux, hsel]
  show orient (l.getD i default, f) ::
      sortAux (orient (l.getD i default, f)).e k (l.eraseIdx i) = _
  rw [sortAux_fuel k (l.eraseIdx i).length _ (l.eraseIdx i) (le_of_eq hlen)
    le_rfl]

theorem perm_cons_eraseIdx :
    ∀ (l : List OCurve) (i : Nat), i < l.length →
      l.Perm (l.getD i default :: l.eraseIdx i) := by
  intro l
  induction l with
  | nil =>
    intro i h
    simp at h
  | cons a l' ih =>
    intro i h
    cases i with
    | zero => exact List.Perm.refl _
    | succ i =>
      have h' : i < l'.length := by
        simp only [List.length_cons] at h
        omega
      exact List.Perm.trans ((ih i h').cons a)
        (List.Perm.swap (l'.getD i default) a (l'.eraseIdx i))

theorem sortNN_perm :
    ∀ (n : Nat) (l : List OCurve), l.length ≤ n → ∀ (q : Pt),
      ∃ pairs : List (OCurve × Bool),
        (pairs.map Prod.fst).Perm l ∧
          sort_curves_nearest_neighbor l q = pairs.map orient := by
  intro n
  induction n with
  | zero =>
    intro l hl q
    have : l = [] := List.length_eq_zero.mp (Nat.le_zero.mp hl)
    subst this
    exact ⟨[], List.Perm.refl _, rfl⟩
  | succ n ih =>
    intro l hl q
    cases l with
    | nil => exact ⟨[], List.Perm.refl _, rfl⟩
    | cons a l' =>
      have hsome := selectClosest_isSome q (a :: l') (by simp)
      rcases hsel : selectClosest q (a :: l') with _ | ⟨i, b, f⟩
      · rw [hsel] at hsome
        simp at hsome
      · have hgood := selectClosest_good q (a :: l') _ hsel
        have hi : i < (a :: l').length := hgood.1
        have hlen : ((a :: l').eraseIdx i).length ≤ n := by
          rw [List.length_eraseIdx, if_pos hi]
          simp only [List.length_cons] at hl ⊢
          omega
        obtain ⟨pairs', hperm', heq'⟩ :=
          ih ((a :: l').eraseIdx i) hlen
            (orient ((a :: l').getD i default, f)).e
        refine ⟨((a :: l').getD i default, f) :: pairs', ?_, ?_⟩
        · exact List.Perm.trans
            (hperm'.cons ((a :: l').getD i default))
            (perm_cons_eraseIdx (a :: l') i hi).symm
        · rw [sortNN_cons q (a :: l') i b f hsel, heq']
          rfl

theorem sortNN_head (p : Pt) (l : List OCurve) (hl : l ≠ []) :
    ∃ c rest, sort_curves_nearest_neighbor l p = c :: rest ∧
      dist2 p c.s ≤ dist2 p c.e := by
  have hsome := selectClosest_isSome p l hl
  rcases hsel : selectClosest p l with _ | ⟨i, b, f⟩
  · rw [hsel] at hsome
    simp at hsome
  · have hgood := selectClosest_good p l _ hsel
    refine ⟨orient (l.getD i default, f), _, sortNN_cons p l i b f hsel, ?_⟩
    have hf : f = decide (dist2 p (l.getD i default).e <
        dist2 p (l.getD i default).s) := hgood.2
    rcases hcmp : decide (dist2 p (l.getD i default).e <
        dist2 p (l.getD i default).s) with _ | _
    · rw [hf, hcmp]
      have hnlt := of_decide_eq_false hcmp
      simpa [orient] using le_of_not_lt hnlt
    · rw [hf, hcmp]
      have hlt := of_decide_eq_true hcmp
      simpa [orient, OCurve.reverse] using le_of_lt hlt

theorem sortNN_chain :
    ∀ (n : Nat) (l : List OCurve), l.length ≤ n → ∀ (q : Pt),
      List.Chain' (fun a b => dist2 a.e b.s ≤ dist2 a.e b.e)
        (sort_curves_nearest_neighbor l q) := by
  intro n
  induction n with
  | zero =>
    intro l hl q
    have : l = [] := List.length_eq_zero.mp (Nat.le_zero.mp hl)
    subst this
    simp [sortNN_nil]
  | succ n ih =>
    intro l hl q
    cases l with
    | nil => simp [sortNN_nil]
    | cons a l' =>
      have hsome := selectClosest_isSome q (a :: l') (by simp)
      rcases hsel : selectClosest q (a :: l') with _ | ⟨i, b, f⟩
      · rw [hsel] at hsome
        simp at hsome
      · have hgood := selectClosest_good q (a :: l') _ hsel
        have hi : i < (a :: l').length := hgood.1
        have hlen : ((a :: l').eraseIdx i).length ≤ n := by
          rw [List.length_eraseIdx, if_pos hi]
          simp only [List.length_cons] at hl ⊢
          omega
        rw [sortNN_cons q (a :: l') i b f hsel]
        rw [List.chain'_cons']
        constructor
        · intro y hy
          rcases hrem : (a :: l').eraseIdx i with _ | ⟨r, rs⟩
          · rw [hrem, sortNN_nil] at hy
            simp at hy
          · obtain ⟨c1, rest1, heq1, hle1⟩ :=
              sortNN_head (orient ((a :: l').getD i default, f)).e
                ((a :: l').eraseIdx i) (by rw [hrem]; simp)
            rw [heq1] at hy
            simp only [List.head?_cons, Option.mem_some_iff] at hy
            subst hy
            exact hle1
        · exact ih _ hlen _

/-- Claim C1 (helper form): the nearest-neighbour tour is, up to the recorded
reversals, a permutation of the input, and consecutive tour curves satisfy the
greedy orientation inequality measured with squared Euclidean distance. -/
def TourSpec (l : List OCurve) (p : Pt) : Prop :=
  (∃ pairs : List (OCurve × Bool),
      (pairs.map Prod.fst).Perm l ∧
        sort_curves_nearest_neighbor l p = pairs.map orient) ∧
    List.Chain' (fun a b => dist2 a.e b.s ≤ dist2 a.e b.e)
      (sort_curves_nearest_neighbor l p)

/-- C1: for every non-empty list of curves and every start point, the tour
returned by `sort_curves_nearest_neighbor` contains each input curve exactly
once (it is a permutation of the input with some curves reversed), and for any
two consecutive curves of the tour the distance from the first curve's
(possibly reversed) end point to the second curve's start point is at most the
distance from that end point to the second curve's end point.  Distances are
measured squared (`dist2`), which is order-equivalent to the Euclidean
distances compared by the source. -/
theorem c1_nearest_neighbor_tour (l : List OCurve) (p : Pt) (_hl : l ≠ []) :
    TourSpec l p :=
  ⟨sortNN_perm l.length l le_rfl p, sortNN_chain l.length l le_rfl p⟩

/-- Concrete two-curve input for the C1 witness. -/
def tourWitnessCurves : List OCurve :=
  [⟨⟨0, 0, 0⟩, ⟨1, 0, 0⟩⟩, ⟨⟨5, 0, 0⟩, ⟨3, 0, 0⟩⟩]

/-- Witness for C1 at a concrete two-curve input. -/
theorem c1_nearest_neighbor_tour_witness :
    TourSpec tourWitnessCurves ⟨0, 0, 0⟩ :=
  c1_nearest_neighbor_tour tourWitnessCurves ⟨0, 0, 0⟩ (by decide)

end Opt

namespace Gen

/-!
Shared embedding of the per-curve machinery of the three G-code generators
(`v240720` lines 97-121, `v240811` lines 123-147, `v241001` lines 224-258 and
373-416).  All three segment a curve in the same way:

```python
curve_params = curve.DivideByLength(nozzle_diameter / 2, True)
if curve_params is None:
    continue
points = [curve.PointAt(t) for t in curve_params]
points.insert(0, curve.PointAtStart)
points.append(curve.PointAtEnd)
```
-/

/-- A curve as seen by the G-code generators: validity flag (`IsValid`),
arc length (`GetLength()`), endpoints, and the outcome of the external call
`curve.DivideByLength(step, True)` mapped through `curve.PointAt`:
`none` when the call fails (Python `None`), otherwise the list of division
sample points.  Per the RhinoCommon documentation, `includeEnds=True` makes a
successful call include the parameter of the curve start, so in the real
system `divPts = some ps` implies `ps` begins with `ptStart`; the field keeps
the outcome abstract and concrete instances choose it consistently with that
contract. -/
structure GCurve where
  isValid : Bool
  length : ℚ
  ptStart : Pt
  ptEnd : Pt
  divPts : Option (List Pt)
deriving DecidableEq

instance : Inhabited GCurve := ⟨⟨false, 0, default, default, none⟩⟩

/-- The segmentation step shared by all three generators: on division failure
the curve is skipped (`continue`); on success the start point is inserted in
front and the end point appended. -/
def segmentPoints (c : GCurve) : Option (List Pt) :=
  match c.divPts with
  | none => none
  | some ps => some (c.ptStart :: (ps ++ [c.ptEnd]))

/-- The interior samples of a segmented point sequence: everything strictly
between the first and the last entry. -/
def interiorSamples (l : List Pt) : List Pt :=
  (l.drop 1).dropLast

theorem segmentPoints_head (c : GCurve) (l : List Pt)
    (h : segmentPoints c = some l) : l.head? = some c.ptStart := by
  unfold segmentPoints at h
  rcases hdiv : c.divPts with _ | ps
  · rw [hdiv] at h
    cases h
  · rw [hdiv] at h
    cases h
    rfl

theorem segmentPoints_last (c : GCurve) (l : List Pt)
    (h : segmentPoints c = some l) : l.getLast? = some c.ptEnd := by
  unfold segmentPoints at h
  rcases hdiv : c.divPts with _ | ps
  · rw [hdiv] at h
    cases h
  · rw [hdiv] at h
    cases h
    rw [show c.ptStart :: (ps ++ [c.ptEnd]) =
      (c.ptStart :: ps) ++ [c.ptEnd] from rfl]
    rw [List.getLast?_append_cons]
    rfl

theorem segmentPoints_length (c : GCurve) (l : List Pt)
    (h : segmentPoints c = some l) : 2 ≤ l.length := by
  unfold segmentPoints at h
  rcases hdiv : c.divPts with _ | ps
  · rw [hdiv] at h
    cases h
  · rw [hdiv] at h
    cases h
    simp

/-- Cumulative chain distances along a point sequence, mirroring

```python
cumulative_distances = [0.0]
for i in range(1, len(points)):
    dist = points[i - 1].DistanceTo(points[i])
    cumulative_distances.append(cumulative_distances[-1] + dist)
```

parameterised by the distance function `d`. -/
def cumDists (d : Pt → Pt → ℚ) : List Pt → List ℚ
  | [] => [0]
  | [_] => [0]
  | p :: q :: rest => 0 :: (cumDists d (q :: rest)).map (fun x => x + d p q)

/-- `total_curve_length = cumulative_distances[-1]`. -/
def totalLen (d : Pt → Pt → ℚ) (pts : List Pt) : ℚ :=
  (cumDists d pts).getLastD 0

/-- Normalised chain distances, mirroring

```python
normalized_distances = [dd / total_curve_length if total_curve_length > 0
                        else 0.0 for dd in cumulative_distances]
```
-/
def normDists (d : Pt → Pt → ℚ) (pts : List Pt) : List ℚ :=
  (cumDists d pts).map
    (fun x => if 0 < totalLen d pts then x / totalLen d pts else 0)

/-- The flux used for the sample at position `i` of a curve's point sequence
(`v241001` lines 397-401):

```python
if flux_mode == 2:
    t_norm = normalized_distances[i]
    flux = start_flux + t_norm * (end_flux - start_flux)
else:
    flux = current_flux
```

In constant mode `start_flux = end_flux = current_flux` (lines 367-368), so
`sf` is `current_flux`. -/
def fluxAt (linear : Bool) (sf ef : ℚ) (norm : List ℚ) (i : Nat) : ℚ :=
  if linear then sf + norm.getD i 0 * (ef - sf) else sf

/-- An emitted G-code line, with the source's textual lines mapped to
constructors: every informational `;...` line is `comment`, the layer markers
keep their layer number, `g92e0` is `"G92 E0.0000"`, `retractE` is
`"G1 E-4.0000 F6000"`, `zMove z` is `"G1 Z{z} F12000"`, `g0`/`g1e` are the
rapid and extruding motion lines, and `g1z` is the per-layer retract line
`"G1 F{f} Z{z}"`.  Numeric payloads keep their exact values (the fixed-decimal
formatting of the f-strings is idealised away). -/
inductive GLine where
  | comment
  | startLayer (n : ℤ)
  | endLayer (n : ℤ)
  | g90
  | m82
  | m83
  | g28
  | g92e0
  | retractE
  | zMove (z : ℚ)
  | g0 (f : ℚ) (p : Pt)
  | g1e (f : ℚ) (p : Pt) (e : ℚ)
  | g1z (f : ℚ) (z : ℚ)
deriving DecidableEq

/-- The extrusion (E) value carried by a line, if any: `G92 E0.0000` carries
`0`, `G1 E-4.0000 F6000` carries `-4`, and `G1 ... E{e}` carries `e`. -/
def eValue? : GLine → Option ℚ
  | GLine.g92e0 => some 0
  | GLine.retractE => some (-4)
  | GLine.g1e _ _ e => some e
  | _ => none

/-- All E values emitted across a line sequence, in order. -/
def eValues (ls : List GLine) : List ℚ :=
  ls.filterMap eValue?

/-- The E values of the motion-with-extrusion (`G1 ... E`) lines only. -/
def g1eValues (ls : List GLine) : List ℚ :=
  ls.filterMap fun l =>
    match l with
    | GLine.g1e _ _ e => some e
    | _ => none

end Gen

namespace V241001

open Gen

/-!
Embedding of `v241001/02_G_Code_Generation_LDM_241001.py`, `generate_gcode`
(lines 85-442).  The model is parameterised by the distance function
`d : Pt → Pt → ℚ` standing for `Point3d.DistanceTo` and by the positive
constant `K` standing for `constant_denominator = ((5.25 / 2) ** 2) * math.pi`
(line 344), whose exact value is irrational.  Nested Grasshopper lists are
taken as already flattened (`flatten`, lines 75-83): a scalar parameter is the
singleton list. -/

/-- The resolved scope of a speed or constant-flux parameter
(`speed_mode_detail` / `flux_mode_detail`). -/
inductive Scope where
  | global
  | perLayer
  | perCurve
deriving DecidableEq

/-- Scope inference from a list length (lines 113-121 for speed, 134-142 for
constant flux): length 1 is global, else length = layer count is per-layer,
else length = curve count is per-curve, else validation fails. -/
def scopeOf (len : Nat) (nL : ℤ) (nC : Nat) : Option Scope :=
  if len = 1 then some Scope.global
  else if (len : ℤ) = nL then some Scope.perLayer
  else if len = nC then some Scope.perCurve
  else none

/-- The validated flux configuration: constant mode carries the resolved scope
and value list, linear mode carries the per-curve start/end lists. -/
inductive FluxCfg where
  | constant (sc : Scope) (vals : List ℚ)
  | linear (starts : List ℚ) (ends : List ℚ)
deriving DecidableEq

def FluxCfg.isLinear : FluxCfg → Bool
  | FluxCfg.constant _ _ => false
  | FluxCfg.linear _ _ => true

/-- The inputs of `generate_gcode`.  `fluxLinear` is `flux_mode == 2`
(the code crashes at runtime for any other non-1 value, which is not
modelled); `density_kg_m3 = none` is Python `None`. -/
structure GInput where
  printing_path : List GCurve
  nozzle_diameter : ℚ
  printing_speed : List ℚ
  m1_flux : List ℚ
  layer_h : ℚ
  e_absolute : Bool
  retract : Bool
  fluxLinear : Bool
  m2_flux_start : Option (List ℚ)
  m2_flux_end : Option (List ℚ)
  density_kg_m3 : Option ℚ

/-- `all_curves = [curve for curve in printing_path if curve.IsValid and
curve.GetLength() > 0]` (line 100). -/
def validCurves (path : List GCurve) : List GCurve :=
  path.filter (fun c => c.isValid && decide (0 < c.length))

def numValidCurves (inp : GInput) : Nat :=
  (validCurves inp.printing_path).length

/-- The lower of a curve's two endpoint Z coordinates. -/
def zLow (c : GCurve) : ℚ := min c.ptStart.z c.ptEnd.z

/-- The higher of a curve's two endpoint Z coordinates. -/
def zHigh (c : GCurve) : ℚ := max c.ptStart.z c.ptEnd.z

/-- `min_z = min(min(start.Z, end.Z) for curve in all_curves)` (line 108);
the unreachable empty case returns 0. -/
def minZ : List GCurve → ℚ
  | [] => 0
  | c :: rest => rest.foldl (fun m c2 => min m (zLow c2)) (zLow c)

/-- `max_z = max(max(start.Z, end.Z) for curve in all_curves)` (line 109). -/
def maxZ : List GCurve → ℚ
  | [] => 0
  | c :: rest => rest.foldl (fun m c2 => max m (zHigh c2)) (zHigh c)

/-- `num_layers = int((max_z - min_z) / layer_h) + 1` (line 110). -/
def numLayersOf (inp : GInput) : ℤ :=
  pyInt ((maxZ (validCurves inp.printing_path) -
    minZ (validCurves inp.printing_path)) / inp.layer_h) + 1

/-- `1800 <= speed <= 10000` for every speed (lines 124-127). -/
def speedBandOk (sp : List ℚ) : Bool :=
  sp.all (fun s => decide (1800 ≤ s) && decide (s ≤ 10000))

/-- Python list repetition `lst * n` applied when a linear-flux list has
length 1 (lines 160-163). -/
def replicateIfSingle (l : List ℚ) (n : Nat) : List ℚ :=
  if l.length = 1 then List.replicate n (l.getD 0 0) else l

/-- Flux validation (lines 130-168): constant mode resolves a scope exactly
like the speed; linear mode requires both lists, broadcasts singletons to the
curve count, and then requires both lists to have equal length matching the
curve count. -/
def resolveFlux (inp : GInput) (nL : ℤ) (nC : Nat) : Option FluxCfg :=
  if inp.fluxLinear then
    match inp.m2_flux_start, inp.m2_flux_end with
    | some s, some e =>
      let s2 := replicateIfSingle s nC
      let e2 := replicateIfSingle e nC
      if s2.length = e2.length ∧ s2.length = nC then
        some (FluxCfg.linear s2 e2)
      else none
    | _, _ => none
  else
    match scopeOf inp.m1_flux.length nL nC with
    | none => none
    | some sc => some (FluxCfg.constant sc inp.m1_flux)

/-- Density defaulting (lines 171-175): `None` or non-positive densities fall
back to 2000 kg/m³ and set the warning-comment flag. -/
def densityOf : Option ℚ → ℚ × Bool
  | none => (2000, true)
  | some dv => if dv ≤ 0 then (2000, true) else (dv, false)

/-- `layer_index = int((curve.PointAtEnd.Z - min_z) / layer_h)` (line 180). -/
def layerKey (lh mz : ℚ) (c : GCurve) : ℤ :=
  pyInt ((c.ptEnd.z - mz) / lh)

/-- `enumerate(all_curves)` as `(curve, idx)` pairs (lines 179-181). -/
def indexedCurves (cs : List GCurve) : List (GCurve × Nat) :=
  cs.enum.map (fun p => (p.2, p.1))

/-- `sorted(curves_by_layer.keys())` (lines 191 and 346). -/
def layerKeys (lh mz : ℚ) (ics : List (GCurve × Nat)) : List ℤ :=
  List.insertionSort (fun a b => a ≤ b)
    ((ics.map (fun ci => layerKey lh mz ci.1)).dedup)

/-- The `(curve, idx)` pairs grouped under one layer key, in input order. -/
def curvesOfKey (lh mz : ℚ) (ics : List (GCurve × Nat)) (k : ℤ) :
    List (GCurve × Nat) :=
  ics.filter (fun ci => decide (layerKey lh mz ci.1 = k))

/-- The layer-level speed assignment (lines 350-353): global and per-layer
scopes set `current_speed`, per-curve leaves the previous value in place. -/
def layerSpeed (sc : Scope) (sp : List ℚ) (k : ℤ) (v : ℚ) : ℚ :=
  match sc with
  | Scope.global => sp.getD 0 0
  | Scope.perLayer => sp.getD k.toNat 0
  | Scope.perCurve => v

/-- The curve-level speed assignment (lines 357-358). -/
def curveSpeed (sc : Scope) (sp : List ℚ) (idx : Nat) (v : ℚ) : ℚ :=
  match sc with
  | Scope.perCurve => sp.getD idx 0
  | _ => v

/-- The `(start_flux, end_flux)` pair of one curve (lines 360-371): in
constant mode both are the scoped `current_flux`; in linear mode they are the
per-curve entries of the validated lists. -/
def fluxPair (cfg : FluxCfg) (k : ℤ) (idx : Nat) : ℚ × ℚ :=
  match cfg with
  | FluxCfg.constant sc vals =>
    let v := match sc with
      | Scope.global => vals.getD 0 0
      | Scope.perLayer => vals.getD k.toNat 0
      | Scope.perCurve => vals.getD idx 0
    (v, v)
  | FluxCfg.linear s e => (s.getD idx 0, e.getD idx 0)

/-- The fixed parameters of one generation run: distance function, the
constant denominator `K` (an abstract stand-in for `((5.25/2)^2)·π`), nozzle
diameter, layer height, extrusion mode, and the retract flag. -/
structure ECtx where
  d : Pt → Pt → ℚ
  K : ℚ
  nd : ℚ
  lh : ℚ
  eAbs : Bool
  retr : Bool

/-- The mutable state threaded through the generation loop: the extrusion
accumulator `extrusion_amount`, `previous_point`, and `current_speed` (the
initial speed value 0 is never read before being assigned). -/
structure St where
  e : ℚ
  prev : Option Pt
  v : ℚ

/-- The per-sample emission loop (lines 389-414), for the samples at indices
`i ≥ 1`: per sample one `G1 F.. X.. Y.. Z.. E..` line whose E value is the
running accumulator in absolute mode and the bare increment in relative mode;
`extrusion_increment = ((nozzle_diameter * layer_h) / constant_denominator) *
flux * segment_distance` (line 404). -/
def emitSegs (cx : ECtx) (v sf ef : ℚ) (linear : Bool) (norm : List ℚ) :
    Pt → List Pt → Nat → ℚ → List GLine × List Pt × ℚ
  | _, [], _, e => ([], [], e)
  | prev, cur :: rest, i, e =>
    let seg := cx.d prev cur
    let flux := fluxAt linear sf ef norm i
    let incr := ((cx.nd * cx.lh) / cx.K) * flux * seg
    let e2 := if cx.eAbs then e + incr else e
    let eVal := if cx.eAbs then e + incr else incr
    let t := emitSegs cx v sf ef linear norm cur rest (i + 1) e2
    (GLine.g1e v cur eVal :: t.1, cur :: t.2.1, t.2.2)

/-- One curve's emission (lines 389-393 for the `i = 0` rapid move, then
`emitSegs` for the rest). -/
def emitCurve (cx : ECtx) (v sf ef : ℚ) (linear : Bool) (pts : List Pt)
    (e : ℚ) : List GLine × List Pt × ℚ :=
  match pts with
  | [] => ([], [], e)
  | p :: rest =>
    let t := emitSegs cx v sf ef linear (normDists cx.d pts) p rest 1 e
    (GLine.g0 v p :: t.1, p :: t.2.1, t.2.2)

/-- The curve loop of one layer (lines 355-416): resolve the per-curve speed
and flux pair, segment the curve (skipping it when `DivideByLength` failed),
emit its lines, and advance `previous_point` to its last sample. -/
def runCurves (cx : ECtx) (sc : Scope) (sp : List ℚ) (cfg : FluxCfg) (k : ℤ) :
    List (GCurve × Nat) → St → List GLine × List Pt × St
  | [], st => ([], [], st)
  | (c, idx) :: rest, st =>
    let v := curveSpeed sc sp idx st.v
    let pr := fluxPair cfg k idx
    match segmentPoints c with
    | none => runCurves cx sc sp cfg k rest ⟨st.e, st.prev, v⟩
    | some pts =>
      let t := emitCurve cx v pr.1 pr.2 cfg.isLinear pts st.e
      let r := runCurves cx sc sp cfg k rest
        ⟨t.2.2, some (pts.getLastD default), v⟩
      (t.1 ++ r.1, t.2.1 ++ r.2.1, r.2.2)

/-- One layer (lines 346-424): opening marker, layer-level speed, the curve
loop, the optional retract line `G1 F{current_speed} Z{prev.Z + layer_h}`
(which also bumps `previous_point.Z`; the source crashes when no point was
ever emitted, which is not modelled), closing marker. -/
def runLayer (cx : ECtx) (sc : Scope) (sp : List ℚ) (cfg : FluxCfg) (k : ℤ)
    (lcs : List (GCurve × Nat)) (st : St) : List GLine × List Pt × St :=
  let t := runCurves cx sc sp cfg k lcs ⟨st.e, st.prev, layerSpeed sc sp k st.v⟩
  let st1 := t.2.2
  let retr : List GLine × Option Pt :=
    if cx.retr then
      match st1.prev with
      | some pp => ([GLine.g1z st1.v (pp.z + cx.lh)],
          some ⟨pp.x, pp.y, pp.z + cx.lh⟩)
      | none => ([], none)
    else ([], st1.prev)
  (GLine.startLayer (k + 1) :: (t.1 ++ retr.1 ++ [GLine.endLayer (k + 1)]),
    t.2.1, ⟨st1.e, retr.2, st1.v⟩)

/-- All layers in ascending key order. -/
def runLayers (cx : ECtx) (sc : Scope) (sp : List ℚ) (cfg : FluxCfg)
    (mz : ℚ) (ics : List (GCurve × Nat)) :
    List ℤ → St → List GLine × List Pt × St
  | [], st => ([], [], st)
  | k :: ks, st =>
    let t := runLayer cx sc sp cfg k (curvesOfKey cx.lh mz ics k) st
    let r := runLayers cx sc sp cfg mz ics ks t.2.2
    (t.1 ++ r.1, t.2.1 ++ r.2.1, r.2.2)

/-- Accumulators of the preprocessing pass (lines 184-258): total extruded
volume, total segment (extrusion) distance, total travel distance, and
`previous_point`.  The source accumulates segment and travel distances into
the single variable `total_printing_distance` (lines 252 and 256); they are
tracked separately here and the source's variable is their sum. -/
structure PrepAcc where
  vol : ℚ
  seg : ℚ
  trav : ℚ
  prev : Option Pt

/-- The per-segment accumulation of the preprocessing pass (lines 240-252),
with `cross_sectional_area = (nozzle_diameter * 1.1 * flux) * layer_h`
(line 249): returns the curve's volume and distance contributions. -/
def prepSegs (d : Pt → Pt → ℚ) (nd lh : ℚ) (linear : Bool) (sf ef : ℚ)
    (norm : List ℚ) : Pt → List Pt → Nat → ℚ × ℚ
  | _, [], _ => (0, 0)
  | prev, cur :: rest, i =>
    let seg := d prev cur
    let flux := fluxAt linear sf ef norm i
    let area := nd * (11 / 10) * flux * lh
    let t := prepSegs d nd lh linear sf ef norm cur rest (i + 1)
    (area * seg + t.1, seg + t.2)

/-- One curve of the preprocessing pass. -/
def prepCurve (d : Pt → Pt → ℚ) (nd lh : ℚ) (linear : Bool) (sf ef : ℚ)
    (pts : List Pt) : ℚ × ℚ :=
  match pts with
  | [] => (0, 0)
  | p :: rest => prepSegs d nd lh linear sf ef (normDists d pts) p rest 1

/-- The curve loop of the preprocessing pass (lines 209-258), including the
travel distance from the previous curve's last sample to this curve's first
sample (lines 254-256). -/
def prepCurves (d : Pt → Pt → ℚ) (nd lh : ℚ) (cfg : FluxCfg) (k : ℤ) :
    List (GCurve × Nat) → PrepAcc → PrepAcc
  | [], acc => acc
  | (c, idx) :: rest, acc =>
    let pr := fluxPair cfg k idx
    match segmentPoints c with
    | none => prepCurves d nd lh cfg k rest acc
    | some pts =>
      let t := prepCurve d nd lh cfg.isLinear pr.1 pr.2 pts
      let travel := match acc.prev with
        | some pp => d pp (pts.headD default)
        | none => 0
      prepCurves d nd lh cfg k rest
        ⟨acc.vol + t.1, acc.seg + t.2, acc.trav + travel,
          some (pts.getLastD default)⟩

/-- The preprocessing pass over all layers in ascending key order. -/
def prepLayers (d : Pt → Pt → ℚ) (nd lh mz : ℚ) (cfg : FluxCfg)
    (ics : List (GCurve × Nat)) : List ℤ → PrepAcc → PrepAcc
  | [], acc => acc
  | k :: ks, acc =>
    prepLayers d nd lh mz cfg ics ks
      (prepCurves d nd lh cfg k (curvesOfKey lh mz ics k) acc)

/-- `average_speed = sum(printing_speed) / len(printing_speed)` (line 261). -/
def avgSpeed (sp : List ℚ) : ℚ :=
  sp.foldl (fun a b => a + b) 0 / (sp.length : ℚ)

/-- The start block (lines 271-338): the information comments (their count
depends only on the density warning), `G90`, `M82`/`M83`, `G28`, the
absolute-mode extruder reset plus retraction (or just the retraction), the
initial Z move `G1 Z{min_z + 2.000} F12000`, and the closing marker. -/
def startBlock (eAbs warn : Bool) (mz : ℚ) : List GLine :=
  [GLine.comment, GLine.comment, GLine.comment, GLine.comment, GLine.comment,
    GLine.comment, GLine.comment, GLine.comment, GLine.comment] ++
  (if warn then [GLine.comment] else []) ++
  [GLine.comment, GLine.comment] ++
  [GLine.comment, GLine.g90, (if eAbs then GLine.m82 else GLine.m83),
    GLine.g28] ++
  (if eAbs then [GLine.g92e0, GLine.retractE] else [GLine.retractE]) ++
  [GLine.zMove (mz + 2), GLine.comment]

/-- The end block (lines 427-437). -/
def endBlock (eAbs : Bool) : List GLine :=
  [GLine.comment] ++
  (if eAbs then [GLine.g92e0, GLine.retractE] else [GLine.retractE]) ++
  [GLine.g28, GLine.comment]

/-- The outputs of a successful run: the line sequence, the printing time in
minutes (before string formatting), the visited points, the total printed
distance (the value formatted into `printing_path_len`), and the layer
count. -/
structure GOutput where
  gcode : List GLine
  printing_time : ℚ
  printing_points : List Pt
  printing_path_len : ℚ
  layers : ℤ
deriving DecidableEq

instance : Inhabited GOutput := ⟨⟨[], 0, [], 0, 0⟩⟩

/-- The `min_z` of a run: over the valid curves. -/
def baseMinZ (inp : GInput) : ℚ := minZ (validCurves inp.printing_path)

/-- The enumerated valid curves of a run. -/
def idxCurves (inp : GInput) : List (GCurve × Nat) :=
  indexedCurves (validCurves inp.printing_path)

/-- The ascending layer keys of a run. -/
def keysOf (inp : GInput) : List ℤ :=
  layerKeys inp.layer_h (baseMinZ inp) (idxCurves inp)

/-- The fixed emission parameters of a run. -/
def runCtx (d : Pt → Pt → ℚ) (K : ℚ) (inp : GInput) : ECtx :=
  ⟨d, K, inp.nozzle_diameter, inp.layer_h, inp.e_absolute, inp.retract⟩

/-- The preprocessing totals of a run (lines 184-258), starting from zeroed
accumulators and no previous point. -/
def prepOf (d : Pt → Pt → ℚ) (inp : GInput) (cfg : FluxCfg) : PrepAcc :=
  prepLayers d inp.nozzle_diameter inp.layer_h (baseMinZ inp) cfg
    (idxCurves inp) (keysOf inp) ⟨0, 0, 0, none⟩

/-- `total_printing_distance` of a run: segment and travel distances summed
(the source accumulates both into one variable at lines 252 and 256). -/
def totalOf (d : Pt → Pt → ℚ) (inp : GInput) (cfg : FluxCfg) : ℚ :=
  (prepOf d inp cfg).seg + (prepOf d inp cfg).trav

/-- The generation loop of a run (lines 340-424), starting from a zeroed
extrusion accumulator and no previous point. -/
def runOf (d : Pt → Pt → ℚ) (K : ℚ) (inp : GInput) (sc : Scope)
    (cfg : FluxCfg) : List GLine × List Pt × St :=
  runLayers (runCtx d K inp) sc inp.printing_speed cfg (baseMinZ inp)
    (idxCurves inp) (keysOf inp) ⟨0, none, 0⟩

/-- The whole of `generate_gcode` (lines 85-442).  Every early `return` with
`gcode = None` is `none`; on some of those paths the source still reports the
layer count, which is not modelled (the caller receives no program either
way). -/
def generateGcode (d : Pt → Pt → ℚ) (K : ℚ) (inp : GInput) : Option GOutput :=
  if (validCurves inp.printing_path).length = 0 then none
  else
    match scopeOf inp.printing_speed.length (numLayersOf inp)
      (validCurves inp.printing_path).length with
    | none => none
    | some sc =>
      if speedBandOk inp.printing_speed then
        match resolveFlux inp (numLayersOf inp)
          (validCurves inp.printing_path).length with
        | none => none
        | some cfg =>
          some ⟨startBlock inp.e_absolute (densityOf inp.density_kg_m3).2
              (baseMinZ inp) ++ (runOf d K inp sc cfg).1 ++
              endBlock inp.e_absolute,
            (if totalOf d inp cfg = 0 then 0
              else totalOf d inp cfg / avgSpeed inp.printing_speed),
            (runOf d K inp sc cfg).2.1,
            totalOf d inp cfg,
            numLayersOf inp⟩
      else none

theorem speedBandOk_iff (sp : List ℚ) :
    speedBandOk sp = true ↔ ∀ s ∈ sp, 1800 ≤ s ∧ s ≤ 10000 := by
  simp [speedBandOk, List.all_eq_true, decide_eq_true_eq]

theorem generateGcode_none_of_no_curves (d : Pt → Pt → ℚ) (K : ℚ)
    (inp : GInput) (h : (validCurves inp.printing_path).length = 0) :
    generateGcode d K inp = none := by
  unfold generateGcode
  simp only [h]
  rfl

theorem generateGcode_none_of_scope_none (d : Pt → Pt → ℚ) (K : ℚ)
    (inp : GInput)
    (h : scopeOf inp.printing_speed.length (numLayersOf inp)
      (validCurves inp.printing_path).length = none) :
    generateGcode d K inp = none := by
  unfold generateGcode
  by_cases h0 : (validCurves inp.printing_path).length = 0
  · simp only [h0]
    rfl
  · simp only [h0, if_neg, h]
    simp

theorem generateGcode_none_of_band (d : Pt → Pt → ℚ) (K : ℚ)
    (inp : GInput) (h : speedBandOk inp.printing_speed = false) :
    generateGcode d K inp = none := by
  unfold generateGcode
  by_cases h0 : (validCurves inp.printing_path).length = 0
  · simp only [h0]
    rfl
  · simp only [h0, if_neg, h]
    rcases scopeOf inp.printing_speed.length (numLayersOf inp)
        (validCurves inp.printing_path).length with _ | sc
    · rfl
    · simp

theorem generateGcode_none_of_flux_none (d : Pt → Pt → ℚ) (K : ℚ)
    (inp : GInput)
    (h : resolveFlux inp (numLayersOf inp)
      (validCurves inp.printing_path).length = none) :
    generateGcode d K inp = none := by
  unfold generateGcode
  by_cases h0 : (validCurves inp.printing_path).length = 0
  · simp only [h0]
    rfl
  · simp only [h0, if_neg, h]
    rcases scopeOf inp.printing_speed.length (numLayersOf inp)
        (validCurves inp.printing_path).length with _ | sc
    · rfl
    · rcases hb : speedBandOk inp.printing_speed with _ | _ <;> simp

theorem cumDists_ne_nil (d : Pt → Pt → ℚ) (pts : List Pt) :
    cumDists d pts ≠ [] := by
  rcases pts with _ | ⟨p, _ | ⟨q, rest⟩⟩ <;> simp [cumDists]

theorem cumDists_head (d : Pt → Pt → ℚ) (pts : List Pt) :
    (cumDists d pts).getD 0 0 = 0 := by
  rcases pts with _ | ⟨p, _ | ⟨q, rest⟩⟩ <;> rfl

theorem length_cumDists (d : Pt → Pt → ℚ) :
    ∀ pts : List Pt, pts ≠ [] → (cumDists d pts).length = pts.length := by
  intro pts
  induction pts with
  | nil => intro h; exact absurd rfl h
  | cons p rest ih =>
    intro _
    cases rest with
    | nil => rfl
    | cons q rs =>
      show (0 :: (cumDists d (q :: rs)).map _).length = _
      simp only [List.length_cons, List.length_map]
      rw [ih (by simp)]
      rfl

theorem normDists_getD_zero (d : Pt → Pt → ℚ) (pts : List Pt) :
    (normDists d pts).getD 0 0 = 0 := by
  unfold normDists
  rw [List.getD_eq_getElem?_getD, List.getElem?_map]
  rcases hc : (cumDists d pts)[0]? with _ | x
  · rfl
  · have hx : x = 0 := by
      have h0 := cumDists_head d pts
      rw [List.getD_eq_getElem?_getD, hc] at h0
      simpa using h0
    subst hx
    simp only [Option.map_some', Option.getD_some]
    split <;> simp

theorem normDists_last (d : Pt → Pt → ℚ) (pts : List Pt)
    (hT : 0 < totalLen d pts) :
    (normDists d pts).getD (pts.length - 1) 0 = 1 := by
  have hne : pts ≠ [] := by
    intro h
    subst h
    simp [totalLen, cumDists] at hT
  have hlen : (cumDists d pts).length = pts.length := length_cumDists d pts hne
  have hcne : cumDists d pts ≠ [] := cumDists_ne_nil d pts
  have hlast : (cumDists d pts)[pts.length - 1]? = some (totalLen d pts) := by
    rw [← hlen, ← List.getLast?_eq_getElem?]
    rw [totalLen, List.getLastD_eq_getLast?]
    rcases hg : (cumDists d pts).getLast? with _ | x
    · exact absurd (List.getLast?_eq_none_iff.mp hg) hcne
    · rfl
  unfold normDists
  rw [List.getD_eq_getElem?_getD, List.getElem?_map, hlast]
  simp only [Option.map_some', Option.getD_some]
  rw [if_pos hT, div_self (ne_of_gt hT)]

/-- C7: in linear flux mode the effective flux at the sample with index `i`
along a curve's point sequence is
`startFlux + normalizedArcLength i * (endFlux - startFlux)`, where the
normalised arc length is the cumulative segment-chain distance divided by the
total chain length; in particular the interpolation evaluates to exactly
`startFlux` at the curve's first sample and to exactly `endFlux` at its last
sample.  Stated for every distance function `d` and every sequence whose
total chain length is positive (when it is zero the source substitutes 0 for
every normalised distance instead of dividing). -/
theorem c7_linear_flux_interpolation (d : Pt → Pt → ℚ) (pts : List Pt)
    (sf ef : ℚ) (hT : 0 < totalLen d pts) :
    normDists d pts =
      (cumDists d pts).map (fun x => x / totalLen d pts) ∧
    (∀ i : Nat, fluxAt true sf ef (normDists d pts) i =
      sf + (normDists d pts).getD i 0 * (ef - sf)) ∧
    fluxAt true sf ef (normDists d pts) 0 = sf ∧
    fluxAt true sf ef (normDists d pts) (pts.length - 1) = ef := by
  refine ⟨?_, ?_, ?_, ?_⟩
  · unfold normDists
    simp only [if_pos hT]
  · intro i
    simp [fluxAt]
  · rw [fluxAt, if_pos rfl, normDists_getD_zero]
    ring
  · rw [fluxAt, if_pos rfl, normDists_last d pts hT]
    ring

/-- Witness for C7: two points at taxicab distance 1. -/
theorem c7_linear_flux_interpolation_witness :
    normDists dist2 [⟨0, 0, 0⟩, ⟨1, 0, 0⟩] =
      (cumDists dist2 [⟨0, 0, 0⟩, ⟨1, 0, 0⟩]).map
        (fun x => x / totalLen dist2 [⟨0, 0, 0⟩, ⟨1, 0, 0⟩]) ∧
    (∀ i : Nat, fluxAt true 2 5 (normDists dist2 [⟨0, 0, 0⟩, ⟨1, 0, 0⟩]) i =
      2 + (normDists dist2 [⟨0, 0, 0⟩, ⟨1, 0, 0⟩]).getD i 0 * (5 - 2)) ∧
    fluxAt true 2 5 (normDists dist2 [⟨0, 0, 0⟩, ⟨1, 0, 0⟩]) 0 = 2 ∧
    fluxAt true 2 5 (normDists dist2 [⟨0, 0, 0⟩, ⟨1, 0, 0⟩])
      (([⟨0, 0, 0⟩, ⟨1, 0, 0⟩] : List Pt).length - 1) = 5 :=
  c7_linear_flux_interpolation dist2 [⟨0, 0, 0⟩, ⟨1, 0, 0⟩] 2 5
    (by norm_num [totalLen, cumDists, dist2])

/-- C10: in linear flux mode a scalar (singleton) start or end flux input is
replicated to every valid curve before validation; after this replication the
generation fails unless the two lists have equal length and that length
equals the number of valid curves. -/
theorem c10_linear_flux_scalar_broadcast :
    (∀ (s : List ℚ) (n : Nat), s.length = 1 →
      replicateIfSingle s n = List.replicate n (s.getD 0 0)) ∧
    (∀ (inp : GInput) (nL : ℤ) (nC : Nat) (s e : List ℚ),
      inp.fluxLinear = true → inp.m2_flux_start = some s →
      inp.m2_flux_end = some e →
      ((resolveFlux inp nL nC).isSome = true ↔
        ((replicateIfSingle s nC).length = (replicateIfSingle e nC).length ∧
          (replicateIfSingle s nC).length = nC))) ∧
    (∀ (d : Pt → Pt → ℚ) (K : ℚ) (inp : GInput),
      resolveFlux inp (numLayersOf inp)
        (validCurves inp.printing_path).length = none →
      generateGcode d K inp = none) := by
  refine ⟨?_, ?_, ?_⟩
  · intro s n hs
    simp [replicateIfSingle, hs]
  · intro inp nL nC s e hlin hs he
    simp only [resolveFlux, hlin, hs, he, if_true]
    by_cases hc : (replicateIfSingle s nC).length =
        (replicateIfSingle e nC).length ∧ (replicateIfSingle s nC).length = nC
    · simp [hc]
    · simp [hc]
  · intro d K inp h
    exact generateGcode_none_of_flux_none d K inp h

/-- Concrete input for the C10 witness: one valid curve, linear flux mode,
scalar start flux and a two-entry end flux list. -/
def inpC10 : GInput :=
  ⟨[⟨true, 10, ⟨0, 0, 0⟩, ⟨10, 0, 0⟩, some []⟩], 4, [3000], [1], 1,
    true, false, true, some [2], some [1, 2], some 2000⟩

/-- Witness for C10 at `inpC10`: the singleton start flux is replicated, the
validation condition is exactly the length condition, and the mismatched
lengths make the whole generation fail. -/
theorem c10_linear_flux_scalar_broadcast_witness :
    replicateIfSingle [2] 1 = List.replicate 1 ((2 : ℚ)) ∧
    ((resolveFlux inpC10 (numLayersOf inpC10) 1).isSome = true ↔
      ((replicateIfSingle [2] 1).length = (replicateIfSingle [1, 2] 1).length ∧
        (replicateIfSingle [2] 1).length = 1)) ∧
    generateGcode dist2 20 inpC10 = none :=
  ⟨c10_linear_flux_scalar_broadcast.1 [2] 1 rfl,
    c10_linear_flux_scalar_broadcast.2.1 inpC10 (numLayersOf inpC10) 1
      [2] [1, 2] rfl rfl rfl,
    c10_linear_flux_scalar_broadcast.2.2 dist2 20 inpC10
      (by norm_num [resolveFlux, inpC10, replicateIfSingle, validCurves,
        numLayersOf, minZ, maxZ, zLow, zHigh, pyInt])⟩

/-- C2 (amended): whenever the external division call succeeds, the segmented
point sequence produced by the shared segmenter (`v241001` lines 373-379,
`v240811` lines 124-131, `v240720` lines 98-105) begins with the curve's
exact start point, ends with its exact end point, and has at least the two
endpoint entries.  The original claim additionally asserted that no interior
sample duplicates the start or end point; that clause fails, because
`DivideByLength(step, True)` returns the curve-start parameter among the
division points and the code then re-inserts `PointAtStart`, so the first
interior sample equals the start point (see the counterexample). -/
theorem c2_segmenter_endpoints (c : GCurve) (l : List Pt)
    (h : segmentPoints c = some l) :
    l.head? = some c.ptStart ∧ l.getLast? = some c.ptEnd ∧ 2 ≤ l.length :=
  ⟨segmentPoints_head c l h, segmentPoints_last c l h,
    segmentPoints_length c l h⟩

/-- A valid curve shorter than the step length, whose successful division
returned just the curve-start parameter (the `includeEnds=True` behaviour of
`DivideByLength` per the RhinoCommon documentation). -/
def cDup : GCurve := ⟨true, 1 / 10, ⟨0, 0, 0⟩, ⟨1 / 10, 0, 0⟩, some [⟨0, 0, 0⟩]⟩

/-- Witness for C2 at the concrete curve `cDup`. -/
theorem c2_segmenter_endpoints_witness :
    ([⟨0, 0, 0⟩, ⟨0, 0, 0⟩, ⟨1 / 10, 0, 0⟩] : List Pt).head? =
        some cDup.ptStart ∧
      ([⟨0, 0, 0⟩, ⟨0, 0, 0⟩, ⟨1 / 10, 0, 0⟩] : List Pt).getLast? =
        some cDup.ptEnd ∧
      2 ≤ ([⟨0, 0, 0⟩, ⟨0, 0, 0⟩, ⟨1 / 10, 0, 0⟩] : List Pt).length :=
  c2_segmenter_endpoints cDup [⟨0, 0, 0⟩, ⟨0, 0, 0⟩, ⟨1 / 10, 0, 0⟩] rfl

/-- C2 counterexample: on the valid curve `cDup` the segmenter output is
`[start, start, end]` — its interior sample list is `[start]`, so an interior
sample duplicates the start point, refuting the claim's no-duplication
clause. -/
theorem c2_counterexample :
    cDup.isValid = true ∧ 0 < cDup.length ∧
    segmentPoints cDup = some [⟨0, 0, 0⟩, ⟨0, 0, 0⟩, ⟨1 / 10, 0, 0⟩] ∧
    interiorSamples [⟨0, 0, 0⟩, ⟨0, 0, 0⟩, ⟨1 / 10, 0, 0⟩] = [⟨0, 0, 0⟩] ∧
    (⟨0, 0, 0⟩ : Pt) = cDup.ptStart :=
  ⟨rfl, by norm_num [cDup], rfl, rfl, rfl⟩

theorem g1eValues_nil : g1eValues [] = [] := rfl

theorem g1eValues_emitSegs_length (cx : ECtx) (v sf ef : ℚ) (linear : Bool)
    (norm : List ℚ) :
    ∀ (rest : List Pt) (prev : Pt) (i : Nat) (e : ℚ),
      (g1eValues (emitSegs cx v sf ef linear norm prev rest i e).1).length =
        rest.length := by
  intro rest
  induction rest with
  | nil =>
    intro prev i e
    rfl
  | cons cur rs ih =>
    intro prev i e
    simp only [emitSegs, g1eValues, List.filterMap_cons]
    simpa [g1eValues] using ih cur (i + 1) _

/-- C3 (amended): when the division call succeeds the segmenter yields at
least the 2 endpoint samples and the per-curve emission produces at least one
motion-with-extrusion command; when the division call fails the curve is
skipped outright (`if curve_params is None: continue`, `v241001` lines
374-375) and contributes no command at all — refuting the original claim's
"even when the division operation fails" clause (see the counterexample). -/
theorem c3_motion_command_guarantee :
    (∀ (cx : ECtx) (v sf ef : ℚ) (linear : Bool) (e : ℚ) (c : GCurve)
        (l : List Pt), segmentPoints c = some l →
      2 ≤ l.length ∧
        1 ≤ (g1eValues (emitCurve cx v sf ef linear l e).1).length) ∧
    (∀ (cx : ECtx) (sc : Scope) (sp : List ℚ) (cfg : FluxCfg) (k : ℤ)
        (c : GCurve) (idx : Nat) (rest : List (GCurve × Nat)) (st : St),
      c.divPts = none →
      runCurves cx sc sp cfg k ((c, idx) :: rest) st =
        runCurves cx sc sp cfg k rest
          ⟨st.e, st.prev, curveSpeed sc sp idx st.v⟩) := by
  constructor
  · intro cx v sf ef linear e c l h
    refine ⟨segmentPoints_length c l h, ?_⟩
    unfold segmentPoints at h
    rcases hdiv : c.divPts with _ | ps
    · rw [hdiv] at h
      cases h
    · rw [hdiv] at h
      cases h
      show 1 ≤ (g1eValues (emitCurve cx v sf ef linear
        (c.ptStart :: (ps ++ [c.ptEnd])) e).1).length
      unfold emitCurve
      simp only [g1eValues, List.filterMap_cons]
      have hlen := g1eValues_emitSegs_length cx v sf ef linear
        (normDists cx.d (c.ptStart :: (ps ++ [c.ptEnd])))
        (ps ++ [c.ptEnd]) c.ptStart 1 e
      rw [g1eValues] at hlen
      rw [hlen]
      simp
  · intro cx sc sp cfg k c idx rest st hdiv
    have hseg : segmentPoints c = none := by
      unfold segmentPoints
      rw [hdiv]
    simp only [runCurves, hseg]

/-- Input for the C3 counterexample and witnesses: one valid curve whose
division call failed, retraction off. -/
def inpC3 : GInput :=
  ⟨[⟨true, 5, ⟨0, 0, 0⟩, ⟨5, 0, 0⟩, none⟩], 4, [3000], [1], 1,
    true, false, false, none, none, some 2000⟩

/-- Witness for C3 at concrete inputs: the success half on `cDup`, the skip
half on the curve of `inpC3`. -/
theorem c3_motion_command_guarantee_witness :
    (2 ≤ ([⟨0, 0, 0⟩, ⟨0, 0, 0⟩, ⟨1 / 10, 0, 0⟩] : List Pt).length ∧
      1 ≤ (g1eValues (emitCurve ⟨dist2, 20, 4, 1, true, false⟩ 3000 1 1 false
        [⟨0, 0, 0⟩, ⟨0, 0, 0⟩, ⟨1 / 10, 0, 0⟩] 0).1).length) ∧
    runCurves ⟨dist2, 20, 4, 1, true, false⟩ Scope.global [3000]
        (FluxCfg.constant Scope.global [1]) 0
        [(⟨true, 5, ⟨0, 0, 0⟩, ⟨5, 0, 0⟩, none⟩, 0)] ⟨0, none, 0⟩ =
      runCurves ⟨dist2, 20, 4, 1, true, false⟩ Scope.global [3000]
        (FluxCfg.constant Scope.global [1]) 0 []
        ⟨0, none, curveSpeed Scope.global [3000] 0 0⟩ :=
  ⟨c3_motion_command_guarantee.1 ⟨dist2, 20, 4, 1, true, false⟩ 3000 1 1
      false 0 cDup [⟨0, 0, 0⟩, ⟨0, 0, 0⟩, ⟨1 / 10, 0, 0⟩] rfl,
    c3_motion_command_guarantee.2 ⟨dist2, 20, 4, 1, true, false⟩ Scope.global
      [3000] (FluxCfg.constant Scope.global [1]) 0
      ⟨true, 5, ⟨0, 0, 0⟩, ⟨5, 0, 0⟩, none⟩ 0 [] ⟨0, none, 0⟩ rfl⟩

/-- C3 counterexample: a run on a single valid curve whose division failed
succeeds, yet the whole emitted program contains no motion-with-extrusion
command — the valid curve contributed none, refuting the claim for the
division-failure case. -/
theorem c3_counterexample :
    (validCurves inpC3.printing_path).length = 1 ∧
    (generateGcode dist2 20 inpC3).map (fun o => g1eValues o.gcode) =
      some [] := by
  constructor
  · rfl
  · norm_num [generateGcode, validCurves, minZ, maxZ, zLow, zHigh, numLayersOf,
      pyInt, scopeOf, speedBandOk, resolveFlux, densityOf, indexedCurves,
      layerKeys, layerKey, curvesOfKey, layerSpeed, curveSpeed, fluxPair,
      segmentPoints, runCurves, runLayer, runLayers, prepCurves, prepLayers,
      avgSpeed, startBlock, endBlock, dist2, inpC3, g1eValues,
      List.insertionSort, List.orderedInsert, List.dedup, FluxCfg.isLinear,
      eValues, eValue?, runCtx, baseMinZ, idxCurves, keysOf, prepOf, totalOf,
      runOf]

theorem getLast?_cumDists (d : Pt → Pt → ℚ) (pts : List Pt) :
    (cumDists d pts).getLast? = some (totalLen d pts) := by
  rw [totalLen, List.getLastD_eq_getLast?]
  rcases h : (cumDists d pts).getLast? with _ | x
  · exact absurd (List.getLast?_eq_none_iff.mp h) (cumDists_ne_nil d pts)
  · rfl

theorem getLast?_map_q (f : ℚ → ℚ) :
    ∀ l : List ℚ, (l.map f).getLast? = l.getLast?.map f := by
  intro l
  induction l with
  | nil => rfl
  | cons a t ih =>
    cases t with
    | nil => rfl
    | cons b t2 =>
      rw [show (a :: b :: t2).map f = f a :: f b :: t2.map f from rfl]
      rw [List.getLast?_cons_cons,
        show f b :: t2.map f = (b :: t2).map f from rfl, ih,
        List.getLast?_cons_cons]

theorem totalLen_cons (d : Pt → Pt → ℚ) (p q : Pt) (rest : List Pt) :
    totalLen d (p :: q :: rest) = totalLen d (q :: rest) + d p q := by
  show (cumDists d (p :: q :: rest)).getLastD 0 = _
  rw [show cumDists d (p :: q :: rest) =
    [0] ++ (cumDists d (q :: rest)).map (fun x => x + d p q) from rfl]
  rw [List.getLastD_eq_getLast?, List.getLast?_append_of_ne_nil]
  · rw [getLast?_map_q, getLast?_cumDists]
    rfl
  · simp [cumDists_ne_nil]

theorem totalLen_nonneg (d : Pt → Pt → ℚ) (hd : ∀ p q, 0 ≤ d p q) :
    ∀ pts : List Pt, 0 ≤ totalLen d pts := by
  intro pts
  induction pts with
  | nil => exact le_refl 0
  | cons p rest ih =>
    cases rest with
    | nil => exact le_refl 0
    | cons q rs =>
      rw [totalLen_cons]
      exact add_nonneg ih (hd p q)

theorem cumDists_bounds (d : Pt → Pt → ℚ) (hd : ∀ p q, 0 ≤ d p q) :
    ∀ pts : List Pt, ∀ x ∈ cumDists d pts, 0 ≤ x ∧ x ≤ totalLen d pts := by
  intro pts
  induction pts with
  | nil =>
    intro x hx
    rw [show cumDists d [] = [0] from rfl] at hx
    simp at hx
    subst hx
    exact ⟨le_refl 0, le_refl 0⟩
  | cons p rest ih =>
    cases rest with
    | nil =>
      intro x hx
      rw [show cumDists d [p] = [0] from rfl] at hx
      simp at hx
      subst hx
      exact ⟨le_refl 0, le_refl 0⟩
    | cons q rs =>
      intro x hx
      rw [show cumDists d (p :: q :: rs) =
        0 :: (cumDists d (q :: rs)).map (fun y => y + d p q) from rfl] at hx
      rw [totalLen_cons]
      rcases List.mem_cons.mp hx with rfl | hx2
      · exact ⟨le_refl 0,
          add_nonneg (totalLen_nonneg d hd (q :: rs)) (hd p q)⟩
      · obtain ⟨y, hy, rfl⟩ := List.mem_map.mp hx2
        obtain ⟨h0, h1⟩ := ih y hy
        exact ⟨add_nonneg h0 (hd p q), add_le_add_right h1 (d p q)⟩

theorem normDists_mem_bounds (d : Pt → Pt → ℚ) (hd : ∀ p q, 0 ≤ d p q)
    (pts : List Pt) : ∀ x ∈ normDists d pts, 0 ≤ x ∧ x ≤ 1 := by
  intro x hx
  unfold normDists at hx
  obtain ⟨y, hy, rfl⟩ := List.mem_map.mp hx
  by_cases hT : 0 < totalLen d pts
  · rw [if_pos hT]
    obtain ⟨h0, h1⟩ := cumDists_bounds d hd pts y hy
    exact ⟨div_nonneg h0 (le_of_lt hT), (div_le_one hT).mpr h1⟩
  · rw [if_neg hT]
    exact ⟨le_refl 0, zero_le_one⟩

theorem normDists_getD_bounds (d : Pt → Pt → ℚ) (hd : ∀ p q, 0 ≤ d p q)
    (pts : List Pt) (i : Nat) :
    0 ≤ (normDists d pts).getD i 0 ∧ (normDists d pts).getD i 0 ≤ 1 := by
  rw [List.getD_eq_getElem?_getD]
  rcases h : (normDists d pts)[i]? with _ | x
  · exact ⟨le_refl 0, by norm_num⟩
  · obtain ⟨hlt, hval⟩ := List.getElem?_eq_some.mp h
    have hmem : x ∈ normDists d pts := hval ▸ List.getElem_mem hlt
    simpa using normDists_mem_bounds d hd pts x hmem

theorem fluxAt_nonneg (linear : Bool) (sf ef : ℚ) (norm : List ℚ) (i : Nat)
    (hsf : 0 ≤ sf) (hef : 0 ≤ ef)
    (hb : 0 ≤ norm.getD i 0 ∧ norm.getD i 0 ≤ 1) :
    0 ≤ fluxAt linear sf ef norm i := by
  unfold fluxAt
  split
  · nlinarith [hb.1, hb.2]
  · exact hsf

theorem getD_nonneg_of_forall (l : List ℚ) (h : ∀ x ∈ l, 0 ≤ x) (i : Nat) :
    0 ≤ l.getD i 0 := by
  rw [List.getD_eq_getElem?_getD]
  rcases hg : l[i]? with _ | x
  · exact le_refl 0
  · obtain ⟨hlt, hval⟩ := List.getElem?_eq_some.mp hg
    exact h x (hval ▸ List.getElem_mem hlt)

theorem replicateIfSingle_nonneg (l : List ℚ) (n : Nat)
    (h : ∀ x ∈ l, 0 ≤ x) : ∀ x ∈ replicateIfSingle l n, 0 ≤ x := by
  intro x hx
  unfold replicateIfSingle at hx
  split at hx
  · have hx2 := List.eq_of_mem_replicate hx
    subst hx2
    exact getD_nonneg_of_forall l h 0
  · exact h x hx

theorem fluxPair_nonneg (inp : GInput) (nL : ℤ) (nC : Nat) (cfg : FluxCfg)
    (hres : resolveFlux inp nL nC = some cfg)
    (hm1 : ∀ x ∈ inp.m1_flux, 0 ≤ x)
    (hm2s : ∀ l, inp.m2_flux_start = some l → ∀ x ∈ l, 0 ≤ x)
    (hm2e : ∀ l, inp.m2_flux_end = some l → ∀ x ∈ l, 0 ≤ x) :
    ∀ (k : ℤ) (idx : Nat),
      0 ≤ (fluxPair cfg k idx).1 ∧ 0 ≤ (fluxPair cfg k idx).2 := by
  intro k idx
  rcases hlin : inp.fluxLinear with _ | _
  · simp only [resolveFlux, hlin, Bool.false_eq_true, if_false] at hres
    rcases hsc : scopeOf inp.m1_flux.length nL nC with _ | sc <;>
      simp only [hsc] at hres
    · cases hres
    · cases hres
      rcases sc with _ | _ | _ <;>
        exact ⟨getD_nonneg_of_forall _ hm1 _, getD_nonneg_of_forall _ hm1 _⟩
  · simp only [resolveFlux, hlin, if_true] at hres
    rcases hs : inp.m2_flux_start with _ | s
    · rcases he : inp.m2_flux_end with _ | e <;> rw [hs, he] at hres <;>
        cases hres
    · rcases he : inp.m2_flux_end with _ | e
      · rw [hs, he] at hres
        cases hres
      · rw [hs, he] at hres
        have hres2 : (if (replicateIfSingle s nC).length =
              (replicateIfSingle e nC).length ∧
              (replicateIfSingle s nC).length = nC then
            some (FluxCfg.linear (replicateIfSingle s nC)
              (replicateIfSingle e nC))
          else none) = some cfg := hres
        by_cases hcond : (replicateIfSingle s nC).length =
            (replicateIfSingle e nC).length ∧
            (replicateIfSingle s nC).length = nC
        · rw [if_pos hcond] at hres2
          cases hres2
          have hs2 := replicateIfSingle_nonneg s nC (hm2s s hs)
          have he2 := replicateIfSingle_nonneg e nC (hm2e e he)
          exact ⟨getD_nonneg_of_forall _ hs2 idx,
            getD_nonneg_of_forall _ he2 idx⟩
        · rw [if_neg hcond] at hres2
          cases hres2

/-- The shape of a block of emitted E values in absolute mode: weakly
increasing, every value between the accumulator value `e0` at block entry and
the value `e1` at block exit. -/
def EBlock (e0 e1 : ℚ) (evs : List ℚ) : Prop :=
  List.Chain' (fun a b => a ≤ b) evs ∧ e0 ≤ e1 ∧ ∀ x ∈ evs, e0 ≤ x ∧ x ≤ e1

theorem EBlock.nil (e0 : ℚ) : EBlock e0 e0 [] :=
  ⟨List.chain'_nil, le_refl e0, by simp⟩

theorem EBlock.weaken (e0 e1 e2 : ℚ) (evs : List ℚ) (h : EBlock e1 e2 evs)
    (hle : e0 ≤ e1) : EBlock e0 e2 evs :=
  ⟨h.1, le_trans hle h.2.1, fun x hx =>
    ⟨le_trans hle ((h.2.2 x hx).1), (h.2.2 x hx).2⟩⟩

theorem EBlock.cons (e0 a e1 : ℚ) (evs : List ℚ) (h0 : e0 ≤ a)
    (h : EBlock a e1 evs) : EBlock e0 e1 (a :: evs) := by
  refine ⟨?_, le_trans h0 h.2.1, ?_⟩
  · rw [List.chain'_cons']
    exact ⟨fun y hy => (h.2.2 y (List.mem_of_mem_head? hy)).1, h.1⟩
  · intro x hx
    rcases List.mem_cons.mp hx with rfl | hx2
    · exact ⟨h0, h.2.1⟩
    · exact ⟨le_trans h0 (h.2.2 x hx2).1, (h.2.2 x hx2).2⟩

theorem EBlock.append (e0 e1 e2 : ℚ) (l1 l2 : List ℚ)
    (h1 : EBlock e0 e1 l1) (h2 : EBlock e1 e2 l2) :
    EBlock e0 e2 (l1 ++ l2) := by
  refine ⟨?_, le_trans h1.2.1 h2.2.1, ?_⟩
  · rw [List.chain'_append]
    refine ⟨h1.1, h2.1, ?_⟩
    intro x hx y hy
    exact le_trans (h1.2.2 x (List.mem_of_mem_getLast? hx)).2
      (h2.2.2 y (List.mem_of_mem_head? hy)).1
  · intro x hx
    rcases List.mem_append.mp hx with hx1 | hx2
    · exact ⟨(h1.2.2 x hx1).1, le_trans (h1.2.2 x hx1).2 h2.2.1⟩
    · exact ⟨le_trans h1.2.1 (h2.2.2 x hx2).1, (h2.2.2 x hx2).2⟩

theorem g1eValues_append (l1 l2 : List GLine) :
    g1eValues (l1 ++ l2) = g1eValues l1 ++ g1eValues l2 :=
  List.filterMap_append l1 l2 _

theorem emitSegs_EBlock (cx : ECtx) (habs : cx.eAbs = true) (v sf ef : ℚ)
    (linear : Bool) (norm : List ℚ)
    (hc : 0 ≤ (cx.nd * cx.lh) / cx.K) (hd : ∀ p q, 0 ≤ cx.d p q)
    (hsf : 0 ≤ sf) (hef : 0 ≤ ef)
    (hnb : ∀ i, 0 ≤ norm.getD i 0 ∧ norm.getD i 0 ≤ 1) :
    ∀ (rest : List Pt) (prev : Pt) (i : Nat) (e : ℚ),
      EBlock e (emitSegs cx v sf ef linear norm prev rest i e).2.2
        (g1eValues (emitSegs cx v sf ef linear norm prev rest i e).1) := by
  intro rest
  induction rest with
  | nil =>
    intro prev i e
    exact EBlock.nil e
  | cons cur rs ih =>
    intro prev i e
    have hflux : 0 ≤ fluxAt linear sf ef norm i :=
      fluxAt_nonneg linear sf ef norm i hsf hef (hnb i)
    have hincr : 0 ≤ ((cx.nd * cx.lh) / cx.K) * fluxAt linear sf ef norm i *
        cx.d prev cur :=
      mul_nonneg (mul_nonneg hc hflux) (hd prev cur)
    simp only [emitSegs, habs, if_true]
    rw [show g1eValues (GLine.g1e v cur
        (e + (cx.nd * cx.lh) / cx.K * fluxAt linear sf ef norm i *
          cx.d prev cur) ::
        (emitSegs cx v sf ef linear norm cur rs (i + 1)
          (e + (cx.nd * cx.lh) / cx.K * fluxAt linear sf ef norm i *
            cx.d prev cur)).1) =
      (e + (cx.nd * cx.lh) / cx.K * fluxAt linear sf ef norm i *
        cx.d prev cur) ::
        g1eValues (emitSegs cx v sf ef linear norm cur rs (i + 1)
          (e + (cx.nd * cx.lh) / cx.K * fluxAt linear sf ef norm i *
            cx.d prev cur)).1 from rfl]
    exact EBlock.cons _ _ _ _ (le_add_of_nonneg_right hincr)
      (ih cur (i + 1) _)

theorem emitCurve_EBlock (cx : ECtx) (habs : cx.eAbs = true) (v sf ef : ℚ)
    (linear : Bool) (pts : List Pt) (e : ℚ)
    (hc : 0 ≤ (cx.nd * cx.lh) / cx.K) (hd : ∀ p q, 0 ≤ cx.d p q)
    (hsf : 0 ≤ sf) (hef : 0 ≤ ef) :
    EBlock e (emitCurve cx v sf ef linear pts e).2.2
      (g1eValues (emitCurve cx v sf ef linear pts e).1) := by
  cases pts with
  | nil => exact EBlock.nil e
  | cons p rest =>
    have hnb := fun i => normDists_getD_bounds cx.d hd (p :: rest) i
    have h := emitSegs_EBlock cx habs v sf ef linear
      (normDists cx.d (p :: rest)) hc hd hsf hef hnb rest p 1 e
    simpa only [emitCurve, g1eValues, List.filterMap_cons] using h

theorem runCurves_EBlock (cx : ECtx) (habs : cx.eAbs = true) (sc : Scope)
    (sp : List ℚ) (cfg : FluxCfg) (k : ℤ)
    (hc : 0 ≤ (cx.nd * cx.lh) / cx.K) (hd : ∀ p q, 0 ≤ cx.d p q)
    (hfp : ∀ (k2 : ℤ) (idx : Nat),
      0 ≤ (fluxPair cfg k2 idx).1 ∧ 0 ≤ (fluxPair cfg k2 idx).2) :
    ∀ (lcs : List (GCurve × Nat)) (st : St),
      EBlock st.e (runCurves cx sc sp cfg k lcs st).2.2.e
        (g1eValues (runCurves cx sc sp cfg k lcs st).1) := by
  intro lcs
  induction lcs with
  | nil =>
    intro st
    exact EBlock.nil st.e
  | cons ci rest ih =>
    intro st
    obtain ⟨c, idx⟩ := ci
    rcases hseg : segmentPoints c with _ | pts
    · simp only [runCurves, hseg]
      exact ih ⟨st.e, st.prev, curveSpeed sc sp idx st.v⟩
    · simp only [runCurves, hseg]
      rw [g1eValues_append]
      exact EBlock.append _ _ _ _ _
        (emitCurve_EBlock cx habs _ _ _ _ pts st.e hc hd
          (hfp k idx).1 (hfp k idx).2)
        (ih ⟨(emitCurve cx (curveSpeed sc sp idx st.v) (fluxPair cfg k idx).1
            (fluxPair cfg k idx).2 cfg.isLinear pts st.e).2.2,
          some (pts.getLastD default), curveSpeed sc sp idx st.v⟩)

theorem runLayer_eState (cx : ECtx) (sc : Scope) (sp : List ℚ)
    (cfg : FluxCfg) (k : ℤ) (lcs : List (GCurve × Nat)) (st : St) :
    (runLayer cx sc sp cfg k lcs st).2.2.e =
      (runCurves cx sc sp cfg k lcs
        ⟨st.e, st.prev, layerSpeed sc sp k st.v⟩).2.2.e := rfl

theorem runLayer_g1eValues (cx : ECtx) (sc : Scope) (sp : List ℚ)
    (cfg : FluxCfg) (k : ℤ) (lcs : List (GCurve × Nat)) (st : St) :
    g1eValues (runLayer cx sc sp cfg k lcs st).1 =
      g1eValues (runCurves cx sc sp cfg k lcs
        ⟨st.e, st.prev, layerSpeed sc sp k st.v⟩).1 := by
  unfold runLayer
  rcases hr : cx.retr <;> simp only [hr, if_true, if_false,
    Bool.false_eq_true]
  · simp [g1eValues, List.filterMap_cons, List.filterMap_append]
  · rcases (runCurves cx sc sp cfg k lcs
      ⟨st.e, st.prev, layerSpeed sc sp k st.v⟩).2.2.prev with _ | pp <;>
      simp [g1eValues, List.filterMap_cons, List.filterMap_append]

theorem runLayers_EBlock (cx : ECtx) (habs : cx.eAbs = true) (sc : Scope)
    (sp : List ℚ) (cfg : FluxCfg) (mz : ℚ) (ics : List (GCurve × Nat))
    (hc : 0 ≤ (cx.nd * cx.lh) / cx.K) (hd : ∀ p q, 0 ≤ cx.d p q)
    (hfp : ∀ (k2 : ℤ) (idx : Nat),
      0 ≤ (fluxPair cfg k2 idx).1 ∧ 0 ≤ (fluxPair cfg k2 idx).2) :
    ∀ (ks : List ℤ) (st : St),
      EBlock st.e (runLayers cx sc sp cfg mz ics ks st).2.2.e
        (g1eValues (runLayers cx sc sp cfg mz ics ks st).1) := by
  intro ks
  induction ks with
  | nil =>
    intro st
    exact EBlock.nil st.e
  | cons k ks2 ih =>
    intro st
    simp only [runLayers]
    rw [g1eValues_append]
    refine EBlock.append _
      ((runLayer cx sc sp cfg k (curvesOfKey cx.lh mz ics k) st).2.2.e)
      _ _ _ ?_ ?_
    · rw [runLayer_g1eValues, runLayer_eState]
      exact runCurves_EBlock cx habs sc sp cfg k hc hd hfp
        (curvesOfKey cx.lh mz ics k) ⟨st.e, st.prev, layerSpeed sc sp k st.v⟩
    · rw [runLayer_eState]
      exact ih _

theorem generateGcode_some_elim (d : Pt → Pt → ℚ) (K : ℚ) (inp : GInput)
    (out : GOutput) (h : generateGcode d K inp = some out) :
    ∃ sc cfg,
      (validCurves inp.printing_path).length ≠ 0 ∧
      scopeOf inp.printing_speed.length (numLayersOf inp)
        (validCurves inp.printing_path).length = some sc ∧
      speedBandOk inp.printing_speed = true ∧
      resolveFlux inp (numLayersOf inp)
        (validCurves inp.printing_path).length = some cfg ∧
      out = ⟨startBlock inp.e_absolute (densityOf inp.density_kg_m3).2
          (baseMinZ inp) ++ (runOf d K inp sc cfg).1 ++
          endBlock inp.e_absolute,
        (if totalOf d inp cfg = 0 then 0
          else totalOf d inp cfg / avgSpeed inp.printing_speed),
        (runOf d K inp sc cfg).2.1,
        totalOf d inp cfg,
        numLayersOf inp⟩ := by
  unfold generateGcode at h
  split at h
  · cases h
  next h0 =>
    split at h
    next hsc => cases h
    next sc hsc =>
      split at h
      next hband =>
        split at h
        next hflux => cases h
        next cfg hflux =>
          exact ⟨sc, cfg, h0, hsc, hband, hflux, (Option.some.inj h).symm⟩
      next hband => cases h

theorem g1eValues_startBlock (eAbs warn : Bool) (mz : ℚ) :
    g1eValues (startBlock eAbs warn mz) = [] := by
  rcases eAbs with _ | _ <;> rcases warn with _ | _ <;> rfl

theorem g1eValues_endBlock (eAbs : Bool) :
    g1eValues (endBlock eAbs) = [] := by
  rcases eAbs with _ | _ <;> rfl

/-- C8 (amended): for every successful run in absolute extrusion mode, the E
values carried by the motion-with-extrusion (`G1 ... E`) lines are
non-decreasing across the whole program, provided the distance function,
nozzle diameter, layer height, the denominator constant, and every flux value
are nonnegative.  The original claim over *all* emitted E values fails: the
fixed start and end blocks emit `G92 E0.0000` followed by the retraction
`G1 E-4.0000 F6000`, a strictly decreasing pair (see the counterexample). -/
theorem c8_absolute_extrusion_monotone (d : Pt → Pt → ℚ) (K : ℚ)
    (inp : GInput) (out : GOutput)
    (hd : ∀ p q, 0 ≤ d p q) (hnd : 0 ≤ inp.nozzle_diameter)
    (hlh : 0 ≤ inp.layer_h) (hK : 0 ≤ K) (habs : inp.e_absolute = true)
    (hm1 : ∀ x ∈ inp.m1_flux, 0 ≤ x)
    (hm2s : ∀ l, inp.m2_flux_start = some l → ∀ x ∈ l, 0 ≤ x)
    (hm2e : ∀ l, inp.m2_flux_end = some l → ∀ x ∈ l, 0 ≤ x)
    (hgen : generateGcode d K inp = some out) :
    List.Chain' (fun a b => a ≤ b) (g1eValues out.gcode) := by
  obtain ⟨sc, cfg, _, _, _, hflux, hout⟩ :=
    generateGcode_some_elim d K inp out hgen
  have hfp := fluxPair_nonneg inp (numLayersOf inp)
    (validCurves inp.printing_path).length cfg hflux hm1 hm2s hm2e
  have hblock := runLayers_EBlock (runCtx d K inp) habs sc
    inp.printing_speed cfg (baseMinZ inp) (idxCurves inp)
    (div_nonneg (mul_nonneg hnd hlh) hK) hd hfp (keysOf inp) ⟨0, none, 0⟩
  rw [hout]
  show List.Chain' (fun a b => a ≤ b)
    (g1eValues (startBlock inp.e_absolute (densityOf inp.density_kg_m3).2
      (baseMinZ inp) ++ (runOf d K inp sc cfg).1 ++ endBlock inp.e_absolute))
  rw [g1eValues_append, g1eValues_append, g1eValues_startBlock,
    g1eValues_endBlock, List.nil_append, List.append_nil]
  exact hblock.1

/-- Concrete two-curve absolute-mode input for the C8 witness and
counterexample. -/
def inpC8 : GInput :=
  ⟨[⟨true, 10, ⟨0, 0, 0⟩, ⟨10, 0, 0⟩, some []⟩,
    ⟨true, 10, ⟨20, 0, 0⟩, ⟨30, 0, 0⟩, some []⟩],
    4, [3000], [1], 1, true, false, false, none, none, some 2000⟩

/-- The output of the run on `inpC8`. -/
def outC8 : GOutput := (generateGcode dist2 20 inpC8).getD default

/-- Witness for C8 at the concrete run on `inpC8`. -/
theorem c8_absolute_extrusion_monotone_witness :
    List.Chain' (fun a b => a ≤ b) (g1eValues outC8.gcode) :=
  c8_absolute_extrusion_monotone dist2 20 inpC8 outC8 dist2_nonneg
    (by norm_num [inpC8]) (by norm_num [inpC8]) (by norm_num) rfl
    (by intro x hx; simp [inpC8] at hx; simp [hx])
    (by intro l hl; simp [inpC8] at hl)
    (by intro l hl; simp [inpC8] at hl)
    (by norm_num [generateGcode, validCurves, minZ, maxZ, zLow, zHigh,
      numLayersOf, pyInt, scopeOf, speedBandOk, resolveFlux, densityOf,
      indexedCurves, layerKeys, layerKey, curvesOfKey, layerSpeed, curveSpeed,
      fluxPair, segmentPoints, cumDists, totalLen, normDists, fluxAt,
      emitSegs, emitCurve, runCurves, runLayer, runLayers, prepSegs,
      prepCurve, prepCurves, prepLayers, avgSpeed, startBlock, endBlock,
      dist2, inpC8, outC8, List.insertionSort, List.orderedInsert,
      List.dedup, FluxCfg.isLinear, runCtx, baseMinZ, idxCurves, keysOf,
      prepOf, totalOf, runOf])

/-- C8 counterexample: the successful absolute-mode run on `inpC8` emits the
E-value sequence `[0, -4, 20, 40, 0, -4]` across the whole program (start
block, layer moves, end block), which is not non-decreasing — already the
start block steps from `G92 E0.0000` down to `G1 E-4.0000 F6000`. -/
theorem c8_counterexample :
    inpC8.e_absolute = true ∧
    (generateGcode dist2 20 inpC8).map (fun o => eValues o.gcode) =
      some [0, -4, 20, 40, 0, -4] ∧
    ¬ List.Chain' (fun a b => a ≤ b) [(0 : ℚ), -4, 20, 40, 0, -4] := by
  refine ⟨rfl, ?_, ?_⟩
  · norm_num [generateGcode, validCurves, minZ, maxZ, zLow, zHigh,
      numLayersOf, pyInt, scopeOf, speedBandOk, resolveFlux, densityOf,
      indexedCurves, layerKeys, layerKey, curvesOfKey, layerSpeed, curveSpeed,
      fluxPair, segmentPoints, cumDists, totalLen, normDists, fluxAt,
      emitSegs, emitCurve, runCurves, runLayer, runLayers, prepSegs,
      prepCurve, prepCurves, prepLayers, avgSpeed, startBlock, endBlock,
      dist2, inpC8, List.insertionSort, List.orderedInsert, List.dedup,
      FluxCfg.isLinear, runCtx, baseMinZ, idxCurves, keysOf, prepOf, totalOf,
      runOf, eValues, eValue?, List.filterMap_cons, List.filterMap_nil]
  · intro h
    rw [List.chain'_cons] at h
    norm_num at h

end V241001

namespace V240811

open Gen

/-!
Embedding of `v240811/G_Code_Generation_240811.py`, `generate_gcode`
(lines 63-180).  Speed is a scalar; flux is a list resolved per layer with a
clamped index; extrusion is always absolute (`M82`); the per-sample loop
emits no rapid move (the `i = 0` sample is skipped entirely).
-/

/-- `max_z = max(curve.PointAtEnd.Z for curve in printing_path)` (line 74):
taken over ALL input curves (before any validity filtering) and over end
points only.  The unreachable empty case returns 0 (the source would
raise). -/
def maxEndZ : List GCurve → ℚ
  | [] => 0
  | c :: rest => rest.foldl (fun m c2 => max m c2.ptEnd.z) c.ptEnd.z

/-- `num_layers = int(max_z / layer_h) + 1` (line 75) — note: no `min_z`
subtraction, unlike the v241001 generator. -/
def numLayers811 (path : List GCurve) (lh : ℚ) : ℤ :=
  pyInt (maxEndZ path / lh) + 1

/-- The flux length check (line 78): the run is rejected iff
`len(printing_flux) != 1 and len(printing_flux) < num_layers`; in particular
any length of at least the layer count passes. -/
def fluxLenOk (len : Nat) (nL : ℤ) : Bool :=
  !(decide (len ≠ 1) && decide ((len : ℤ) < nL))

/-- `layer_index = int(curve.PointAtEnd.Z / layer_h)` (line 86). -/
def layerKey811 (lh : ℚ) (c : GCurve) : ℤ :=
  pyInt (c.ptEnd.z / lh)

/-- The valid curves kept for grouping (line 85). -/
def validCurves811 (path : List GCurve) : List GCurve :=
  path.filter (fun c => c.isValid && decide (0 < c.length))

/-- `sorted(curves_by_layer.keys())` (line 117). -/
def keys811 (lh : ℚ) (cs : List GCurve) : List ℤ :=
  List.insertionSort (fun a b => a ≤ b) ((cs.map (layerKey811 lh)).dedup)

/-- The curves grouped under one layer key, in input order. -/
def curvesOfKey811 (lh : ℚ) (cs : List GCurve) (k : ℤ) : List GCurve :=
  cs.filter (fun c => decide (layerKey811 lh c = k))

/-- `current_flux` of a layer (line 120): the single value, or the entry at
the clamped index `min(layer_index, len(printing_flux) - 1)`. -/
def currentFlux811 (flux : List ℚ) (k : ℤ) : ℚ :=
  if flux.length = 1 then flux.getD 0 0
  else flux.getD (min k.toNat (flux.length - 1)) 0

/-- The mutable state of the generation loop: `total_extrusion_distance`,
`total_travel_distance`, `extrusion_amount`, `previous_point`. -/
structure St811 where
  ext : ℚ
  trav : ℚ
  e : ℚ
  prev : Option Pt

/-- The shared per-sample emission of `v240811` (lines 133-140) and `v240720`
(lines 113-121): per sample one `G1 F.. X.. Y.. Z.. E..` line with
`extrusion_amount += segment_distance * flux` accumulated absolutely, plus
the running total of extrusion distance; the `i = 0` sample emits nothing. -/
def emitFluxSegs (d : Pt → Pt → ℚ) (v flux : ℚ) :
    Pt → List Pt → ℚ → ℚ → List GLine × List Pt × ℚ × ℚ
  | _, [], ext, e => ([], [], ext, e)
  | prev, cur :: rest, ext, e =>
    let seg := d prev cur
    let t := emitFluxSegs d v flux cur rest (ext + seg) (e + seg * flux)
    (GLine.g1e v cur (e + seg * flux) :: t.1, cur :: t.2.1, t.2.2)

/-- The curve loop of one layer (lines 122-147): segment (skipping the curve
when the division failed), emit, then account the travel distance from the
previous end point and advance it. -/
def runCurves811 (d : Pt → Pt → ℚ) (v flux : ℚ) :
    List GCurve → St811 → List GLine × List Pt × St811
  | [], st => ([], [], st)
  | c :: rest, st =>
    match segmentPoints c with
    | none => runCurves811 d v flux rest st
    | some [] => runCurves811 d v flux rest st
    | some (p :: ps) =>
      let t := emitFluxSegs d v flux p ps st.ext st.e
      let travel := match st.prev with
        | some pp => d pp p
        | none => 0
      let r := runCurves811 d v flux rest
        ⟨t.2.2.1, st.trav + travel, t.2.2.2, some ((p :: ps).getLastD default)⟩
      (t.1 ++ r.1, t.2.1 ++ r.2.1, r.2.2)

/-- One layer (lines 117-157): marker, the curve loop with the layer's
clamped flux, the optional retract line (which uses the final point of the
layer's last segmented curve — aliased with `previous_point` here — and bumps
its Z), closing marker. -/
def runLayer811 (d : Pt → Pt → ℚ) (v lh : ℚ) (retract : Bool)
    (flux : List ℚ) (k : ℤ) (lcs : List GCurve) (st : St811) :
    List GLine × List Pt × St811 :=
  let t := runCurves811 d v (currentFlux811 flux k) lcs st
  let st1 := t.2.2
  let retr : List GLine × Option Pt :=
    if retract then
      match st1.prev with
      | some pp => ([GLine.g1z v (pp.z + lh)], some ⟨pp.x, pp.y, pp.z + lh⟩)
      | none => ([], none)
    else ([], st1.prev)
  (GLine.startLayer (k + 1) :: (t.1 ++ retr.1 ++ [GLine.endLayer (k + 1)]),
    t.2.1, ⟨st1.ext, st1.trav, st1.e, retr.2⟩)

/-- All layers in ascending key order. -/
def runLayers811 (d : Pt → Pt → ℚ) (v lh : ℚ) (retract : Bool)
    (flux : List ℚ) (cs : List GCurve) :
    List ℤ → St811 → List GLine × List Pt × St811
  | [], st => ([], [], st)
  | k :: ks, st =>
    let t := runLayer811 d v lh retract flux k (curvesOfKey811 lh cs k) st
    let r := runLayers811 d v lh retract flux cs ks t.2.2
    (t.1 ++ r.1, t.2.1 ++ r.2.1, r.2.2)

/-- The start block (lines 97-111). -/
def startBlock811 : List GLine :=
  [GLine.comment, GLine.comment, GLine.comment, GLine.comment, GLine.comment,
    GLine.comment, GLine.g90, GLine.m82, GLine.g28, GLine.g92e0,
    GLine.retractE, GLine.zMove 2, GLine.comment]

/-- The end block (lines 160-166). -/
def endBlock811 : List GLine :=
  [GLine.comment, GLine.g92e0, GLine.retractE, GLine.g28, GLine.comment]

/-- The generation loop of a run starting from zeroed accumulators. -/
def runOf811 (d : Pt → Pt → ℚ) (path : List GCurve) (v : ℚ) (flux : List ℚ)
    (lh : ℚ) (retract : Bool) : List GLine × List Pt × St811 :=
  runLayers811 d v lh retract flux (validCurves811 path)
    (keys811 lh (validCurves811 path)) ⟨0, 0, 0, none⟩

/-- The whole of `v240811`'s `generate_gcode` (lines 63-180).  Outputs reuse
`GOutput`: note `printing_path_len` here is the extrusion distance only
(line 175), while `printing_time` divides the sum of extrusion and travel
distance by the single printing speed (lines 170-172). -/
def generate240811 (d : Pt → Pt → ℚ) (path : List GCurve) (v : ℚ)
    (flux : List ℚ) (lh : ℚ) (retract : Bool) : Option V241001.GOutput :=
  if v < 1800 ∨ 11000 < v then none
  else if fluxLenOk flux.length (numLayers811 path lh) = false then none
  else
    some ⟨startBlock811 ++ (runOf811 d path v flux lh retract).1 ++
        endBlock811,
      (if (runOf811 d path v flux lh retract).2.2.ext +
          (runOf811 d path v flux lh retract).2.2.trav = 0 then 0
        else ((runOf811 d path v flux lh retract).2.2.ext +
          (runOf811 d path v flux lh retract).2.2.trav) / v),
      (runOf811 d path v flux lh retract).2.1,
      (runOf811 d path v flux lh retract).2.2.ext,
      numLayers811 path lh⟩

end V240811

namespace V240720

open Gen

/-!
Embedding of `v240720/G_Code_Generation_240720.py`, `generate_gcode`
(lines 54-139).  A single flat curve loop (no layer grouping, no layer
markers, no retract); the estimated time divides the extrusion distance by
the printing speed and the travel distance by the fixed rapid speed 12000.
-/

/-- `travel_speed = 12000` (line 134), the fixed rapid-move speed. -/
def travelSpeed : ℚ := 12000

/-- `printing_path_len = sum(curve.GetLength() for valid curves)`
(line 68). -/
def pathLen720 (path : List GCurve) : ℚ :=
  (path.filter (fun c => c.isValid && decide (0 < c.length))).foldl
    (fun acc c => acc + c.length) 0

/-- The curve loop (lines 93-121): skip invalid or undividable curves,
account travel from the previous curve's last point, then emit one extruding
move per further sample via the shared `emitFluxSegs`. -/
def runCurves720 (d : Pt → Pt → ℚ) (v flux : ℚ) :
    List GCurve → V240811.St811 → List GLine × List Pt × V240811.St811
  | [], st => ([], [], st)
  | c :: rest, st =>
    if c.isValid && decide (0 < c.length) then
      match segmentPoints c with
      | none => runCurves720 d v flux rest st
      | some [] => runCurves720 d v flux rest st
      | some (p :: ps) =>
        let t := V240811.emitFluxSegs d v flux p ps st.ext st.e
        let travel := match st.prev with
          | some pp => d pp p
          | none => 0
        let r := runCurves720 d v flux rest
          ⟨t.2.2.1, st.trav + travel, t.2.2.2,
            some ((p :: ps).getLastD default)⟩
        (t.1 ++ r.1, t.2.1 ++ r.2.1, r.2.2)
    else runCurves720 d v flux rest st

/-- The start block (lines 71-86). -/
def startBlock720 : List GLine :=
  [GLine.comment, GLine.comment, GLine.comment, GLine.comment, GLine.comment,
    GLine.comment, GLine.comment, GLine.g90, GLine.m82, GLine.g28,
    GLine.g92e0, GLine.retractE, GLine.zMove 2, GLine.comment]

/-- The end block (lines 124-130). -/
def endBlock720 : List GLine :=
  [GLine.comment, GLine.g92e0, GLine.retractE, GLine.g28, GLine.comment]

/-- The curve loop of a run from zeroed accumulators. -/
def runOf720 (d : Pt → Pt → ℚ) (path : List GCurve) (v flux : ℚ) :
    List GLine × List Pt × V240811.St811 :=
  runCurves720 d v flux path ⟨0, 0, 0, none⟩

/-- The outputs of a successful `v240720` run: line sequence, estimated time
in minutes, visited points, and total path length. -/
structure Out720 where
  gcode : List GLine
  printing_time : ℚ
  printing_points : List Pt
  printing_path_len : ℚ
deriving DecidableEq

/-- The whole of `v240720`'s `generate_gcode` (lines 54-139), with
`printing_time = total_extrusion_distance / printing_speed +
total_travel_distance / travel_speed` (line 135). -/
def generate240720 (d : Pt → Pt → ℚ) (path : List GCurve) (v flux : ℚ) :
    Option Out720 :=
  if v < 1800 ∨ 11000 < v then none
  else
    some ⟨startBlock720 ++ (runOf720 d path v flux).1 ++ endBlock720,
      (runOf720 d path v flux).2.2.ext / v +
        (runOf720 d path v flux).2.2.trav / travelSpeed,
      (runOf720 d path v flux).2.1,
      pathLen720 path⟩

end V240720

namespace Claims

open Gen

theorem foldl_min_le_foldl_max :
    ∀ (rest : List GCurve) (a b : ℚ), a ≤ b →
      rest.foldl (fun m c2 => min m (V241001.zLow c2)) a ≤
        rest.foldl (fun m c2 => max m (V241001.zHigh c2)) b := by
  intro rest
  induction rest with
  | nil =>
    intro a b h
    exact h
  | cons c t ih =>
    intro a b h
    exact ih _ _ (le_trans (min_le_left a _) (le_trans h (le_max_left b _)))

theorem minZ_le_maxZ (cs : List GCurve) (h : cs ≠ []) :
    V241001.minZ cs ≤ V241001.maxZ cs := by
  cases cs with
  | nil => exact absurd rfl h
  | cons c rest =>
    exact foldl_min_le_foldl_max rest _ _
      (le_trans (min_le_left _ _) (le_max_left _ _))

/-- C4: whenever some printing-speed value lies outside the configured band,
generation is rejected outright: the `v241001` generator (band 1800-10000)
returns no outputs for any input whose (flattened) speed list contains an
out-of-band value, and the `v240811` and `v240720` generators (band
1800-11000, scalar speed) do likewise — e.g. speed 500, below the 1800
floor.  No output lines are produced: the failure result carries no
program. -/
theorem c4_speed_band_rejection :
    (∀ (d : Pt → Pt → ℚ) (K : ℚ) (inp : V241001.GInput),
      (∃ s ∈ inp.printing_speed, s < 1800 ∨ 10000 < s) →
      V241001.generateGcode d K inp = none) ∧
    (∀ (d : Pt → Pt → ℚ) (path : List GCurve) (v : ℚ) (flux : List ℚ)
        (lh : ℚ) (r : Bool), (v < 1800 ∨ 11000 < v) →
      V240811.generate240811 d path v flux lh r = none) ∧
    (∀ (d : Pt → Pt → ℚ) (path : List GCurve) (v flux : ℚ),
      (v < 1800 ∨ 11000 < v) → V240720.generate240720 d path v flux = none) := by
  refine ⟨?_, ?_, ?_⟩
  · intro d K inp h
    apply V241001.generateGcode_none_of_band
    rcases hb : V241001.speedBandOk inp.printing_speed with _ | _
    · rfl
    · exfalso
      obtain ⟨s, hs, hbad⟩ := h
      obtain ⟨h1, h2⟩ := (V241001.speedBandOk_iff inp.printing_speed).mp hb s hs
      rcases hbad with hbad | hbad <;> linarith
  · intro d path v flux lh r h
    unfold V240811.generate240811
    rw [if_pos h]
  · intro d path v flux h
    unfold V240720.generate240720
    rw [if_pos h]

/-- Concrete input for the C4 witness: speed 500 on one valid curve. -/
def inpC4 : V241001.GInput :=
  ⟨[⟨true, 10, ⟨0, 0, 0⟩, ⟨10, 0, 0⟩, some []⟩], 4, [500], [1], 1,
    true, false, false, none, none, some 2000⟩

/-- Witness for C4: speed 500 mm/min is rejected by all three generators. -/
theorem c4_speed_band_rejection_witness :
    V241001.generateGcode dist2 20 inpC4 = none ∧
    V240811.generate240811 dist2 [] 500 [1] 1 false = none ∧
    V240720.generate240720 dist2 [] 500 1 = none :=
  ⟨c4_speed_band_rejection.1 dist2 20 inpC4
      ⟨500, by norm_num [inpC4], Or.inl (by norm_num)⟩,
    c4_speed_band_rejection.2.1 dist2 [] 500 [1] 1 false
      (Or.inl (by norm_num)),
    c4_speed_band_rejection.2.2 dist2 [] 500 1 (Or.inl (by norm_num))⟩

/-- C5 (amended): in the `v241001` generator, a speed or constant-flux list
of length 1 resolves to global scope and is applied uniformly; otherwise a
length equal to the layer count resolves to per-layer scope; otherwise a
length equal to the curve count resolves to per-curve scope; any other
length fails scope resolution and the whole generation returns no output.
In the `v240811` generator, however, the flux list check passes exactly when
the length is 1 or at least the layer count, so over-long lists are accepted
(with clamped indexing) rather than failing — refuting the original claim's
"any other length fails" for that generator (see the counterexample). -/
theorem c5_scope_resolution :
    (∀ (len : Nat) (nL : ℤ) (nC : Nat), len = 1 →
      V241001.scopeOf len nL nC = some V241001.Scope.global) ∧
    (∀ (sp : List ℚ) (k : ℤ) (idx : Nat) (v0 : ℚ),
      V241001.curveSpeed V241001.Scope.global sp idx
        (V241001.layerSpeed V241001.Scope.global sp k v0) = sp.getD 0 0) ∧
    (∀ (vals : List ℚ) (k : ℤ) (idx : Nat),
      V241001.fluxPair (V241001.FluxCfg.constant V241001.Scope.global vals)
        k idx = (vals.getD 0 0, vals.getD 0 0)) ∧
    (∀ (len : Nat) (nL : ℤ) (nC : Nat), len ≠ 1 → (len : ℤ) = nL →
      V241001.scopeOf len nL nC = some V241001.Scope.perLayer) ∧
    (∀ (len : Nat) (nL : ℤ) (nC : Nat), len ≠ 1 → (len : ℤ) ≠ nL →
      len = nC → V241001.scopeOf len nL nC = some V241001.Scope.perCurve) ∧
    (∀ (len : Nat) (nL : ℤ) (nC : Nat), len ≠ 1 → (len : ℤ) ≠ nL →
      len ≠ nC → V241001.scopeOf len nL nC = none) ∧
    (∀ (d : Pt → Pt → ℚ) (K : ℚ) (inp : V241001.GInput),
      V241001.scopeOf inp.printing_speed.length (V241001.numLayersOf inp)
        (V241001.validCurves inp.printing_path).length = none →
      V241001.generateGcode d K inp = none) ∧
    (∀ (d : Pt → Pt → ℚ) (K : ℚ) (inp : V241001.GInput),
      V241001.resolveFlux inp (V241001.numLayersOf inp)
        (V241001.validCurves inp.printing_path).length = none →
      V241001.generateGcode d K inp = none) ∧
    (∀ (len : Nat) (nL : ℤ),
      V240811.fluxLenOk len nL = true ↔ (len = 1 ∨ nL ≤ (len : ℤ))) := by
  refine ⟨?_, ?_, ?_, ?_, ?_, ?_, ?_, ?_, ?_⟩
  · intro len nL nC h
    simp [V241001.scopeOf, h]
  · intro sp k idx v0
    rfl
  · intro vals k idx
    rfl
  · intro len nL nC h1 h2
    simp [V241001.scopeOf, h1, h2]
  · intro len nL nC h1 h2 h3
    subst h3
    simp [V241001.scopeOf, h1, h2]
  · intro len nL nC h1 h2 h3
    simp [V241001.scopeOf, h1, h2, h3]
  · exact V241001.generateGcode_none_of_scope_none
  · exact V241001.generateGcode_none_of_flux_none
  · intro len nL
    unfold V240811.fluxLenOk
    rcases h1 : decide (len ≠ 1) with _ | _ <;>
      rcases h2 : decide ((len : ℤ) < nL) with _ | _ <;>
      simp at h1 h2 <;> simp [h1, h2]

/-- Concrete inputs for the C5 witness: a speed list of length 2 against one
layer and one curve. -/
def inpC5 : V241001.GInput :=
  ⟨[⟨true, 10, ⟨0, 0, 0⟩, ⟨10, 0, 0⟩, some []⟩], 4, [2000, 2000], [1], 1,
    true, false, false, none, none, some 2000⟩

/-- Witness for C5 at concrete lengths and inputs. -/
theorem c5_scope_resolution_witness :
    V241001.scopeOf 1 5 7 = some V241001.Scope.global ∧
    V241001.curveSpeed V241001.Scope.global [4000] 3
      (V241001.layerSpeed V241001.Scope.global [4000] 2 0) =
      ([4000] : List ℚ).getD 0 0 ∧
    V241001.scopeOf 5 5 7 = some V241001.Scope.perLayer ∧
    V241001.scopeOf 7 5 7 = some V241001.Scope.perCurve ∧
    V241001.scopeOf 4 5 7 = none ∧
    V241001.generateGcode dist2 20 inpC5 = none ∧
    (V240811.fluxLenOk 3 2 = true ↔ ((3 : Nat) = 1 ∨ (2 : ℤ) ≤ 3)) :=
  ⟨c5_scope_resolution.1 1 5 7 rfl,
    c5_scope_resolution.2.1 [4000] 3 3 0,
    c5_scope_resolution.2.2.2.1 5 5 7 (by norm_num) rfl,
    c5_scope_resolution.2.2.2.2.1 7 5 7 (by norm_num) (by norm_num) rfl,
    c5_scope_resolution.2.2.2.2.2.1 4 5 7 (by norm_num) (by norm_num)
      (by norm_num),
    c5_scope_resolution.2.2.2.2.2.2.1 dist2 20 inpC5
      (by norm_num [V241001.scopeOf, inpC5, V241001.numLayersOf,
        V241001.validCurves, V241001.minZ, V241001.maxZ, V241001.zLow,
        V241001.zHigh, pyInt]),
    c5_scope_resolution.2.2.2.2.2.2.2.2 3 2⟩

/-- Path for the C5 counterexample: one valid curve at Z = 0. -/
def pathC5 : List GCurve := [⟨true, 10, ⟨0, 0, 0⟩, ⟨10, 0, 0⟩, some []⟩]

/-- C5 counterexample: in the `v240811` generator a flux list of length 2 —
which is neither 1, nor the layer count (1), nor the curve count (1) —
passes validation and the generation succeeds, refuting "any other length
makes the whole generation fail validation". -/
theorem c5_counterexample :
    (2 : Nat) ≠ 1 ∧
    V240811.numLayers811 pathC5 1 = 1 ∧
    (V240811.validCurves811 pathC5).length = 1 ∧
    ((2 : Nat) : ℤ) ≠ 1 ∧ (2 : Nat) ≠ 1 ∧
    V240811.fluxLenOk 2 (V240811.numLayers811 pathC5 1) = true ∧
    (V240811.generate240811 dist2 pathC5 2000 [1, 1] 1 false).isSome =
      true := by
  refine ⟨by norm_num, ?_, rfl, by norm_num, by norm_num, ?_, ?_⟩
  · norm_num [V240811.numLayers811, V240811.maxEndZ, pyInt, pathC5]
  · norm_num [V240811.fluxLenOk, V240811.numLayers811, V240811.maxEndZ,
      pyInt, pathC5]
  · norm_num [V240811.generate240811, V240811.fluxLenOk,
      V240811.numLayers811, V240811.maxEndZ, pyInt, pathC5]

theorem generate240811_some_elim (d : Pt → Pt → ℚ) (path : List GCurve)
    (v : ℚ) (flux : List ℚ) (lh : ℚ) (r : Bool) (out : V241001.GOutput)
    (h : V240811.generate240811 d path v flux lh r = some out) :
    out.layers = V240811.numLayers811 path lh ∧
    out.printing_time =
      (if (V240811.runOf811 d path v flux lh r).2.2.ext +
          (V240811.runOf811 d path v flux lh r).2.2.trav = 0 then 0
        else ((V240811.runOf811 d path v flux lh r).2.2.ext +
          (V240811.runOf811 d path v flux lh r).2.2.trav) / v) := by
  unfold V240811.generate240811 at h
  split at h
  · cases h
  · split at h
    · cases h
    · obtain rfl := Option.some.inj h
      exact ⟨rfl, rfl⟩

theorem generate240720_some_elim (d : Pt → Pt → ℚ) (path : List GCurve)
    (v flux : ℚ) (out : V240720.Out720)
    (h : V240720.generate240720 d path v flux = some out) :
    out.printing_time = (V240720.runOf720 d path v flux).2.2.ext / v +
      (V240720.runOf720 d path v flux).2.2.trav / V240720.travelSpeed := by
  unfold V240720.generate240720 at h
  split at h
  · cases h
  · obtain rfl := Option.some.inj h
    rfl

/-- C6 (amended): in the `v241001` generator, on success with a positive
layer height the returned layer count equals
`⌊(maxZ − minZ)/layerHeight⌋ + 1` over the valid curves' endpoint Z
coordinates.  In the `v240811` generator it instead equals
`⌊maxEndZ/layerHeight⌋ + 1`, where `maxEndZ` is the maximum end-point Z over
all input curves with no `minZ` subtraction, so the claimed formula holds
there only when the lowest Z is 0 (see the counterexample). -/
theorem c6_layer_count :
    (∀ (d : Pt → Pt → ℚ) (K : ℚ) (inp : V241001.GInput)
        (out : V241001.GOutput),
      0 < inp.layer_h → V241001.generateGcode d K inp = some out →
      out.layers = ⌊(V241001.maxZ (V241001.validCurves inp.printing_path) -
        V241001.minZ (V241001.validCurves inp.printing_path)) /
          inp.layer_h⌋ + 1) ∧
    (∀ (d : Pt → Pt → ℚ) (path : List GCurve) (v : ℚ) (flux : List ℚ)
        (lh : ℚ) (r : Bool) (out : V241001.GOutput),
      0 ≤ V240811.maxEndZ path → 0 < lh →
      V240811.generate240811 d path v flux lh r = some out →
      out.layers = ⌊V240811.maxEndZ path / lh⌋ + 1) := by
  constructor
  · intro d K inp out hlh hgen
    obtain ⟨sc, cfg, h0, _, _, _, hout⟩ :=
      V241001.generateGcode_some_elim d K inp out hgen
    have hne : V241001.validCurves inp.printing_path ≠ [] :=
      List.length_pos.mp (Nat.pos_of_ne_zero h0)
    have hnn : 0 ≤ (V241001.maxZ (V241001.validCurves inp.printing_path) -
        V241001.minZ (V241001.validCurves inp.printing_path)) /
          inp.layer_h :=
      div_nonneg (sub_nonneg.mpr
        (minZ_le_maxZ (V241001.validCurves inp.printing_path) hne))
        (le_of_lt hlh)
    rw [hout]
    show V241001.numLayersOf inp = _
    unfold V241001.numLayersOf
    rw [pyInt_eq_floor hnn]
  · intro d path v flux lh r out hmz hlh hgen
    rw [(generate240811_some_elim d path v flux lh r out hgen).1]
    unfold V240811.numLayers811
    rw [pyInt_eq_floor (div_nonneg hmz (le_of_lt hlh))]

/-- Input for the C6 witness: one valid curve with endpoint Zs 0 and 3,
layer height 2. -/
def inpC6 : V241001.GInput :=
  ⟨[⟨true, 10, ⟨0, 0, 0⟩, ⟨10, 0, 3⟩, some []⟩], 4, [3000], [1], 2,
    true, false, false, none, none, some 2000⟩

/-- The output of the `v241001` run on `inpC6`. -/
def outC6 : V241001.GOutput :=
  (V241001.generateGcode dist2 20 inpC6).getD default

/-- Path for the C6 counterexample and the v240811 witness half: one valid
curve lying at Z = 10. -/
def pathC6 : List GCurve := [⟨true, 10, ⟨0, 0, 10⟩, ⟨10, 0, 10⟩, some []⟩]

/-- The output of the `v240811` run on `pathC6`. -/
def out811C6 : V241001.GOutput :=
  (V240811.generate240811 dist2 pathC6 2000 [1] 1 false).getD default

/-- Witness for C6: both halves applied at concrete successful runs. -/
theorem c6_layer_count_witness :
    outC6.layers = ⌊(V241001.maxZ (V241001.validCurves inpC6.printing_path) -
      V241001.minZ (V241001.validCurves inpC6.printing_path)) /
        inpC6.layer_h⌋ + 1 ∧
    out811C6.layers = ⌊V240811.maxEndZ pathC6 / 1⌋ + 1 :=
  ⟨c6_layer_count.1 dist2 20 inpC6 outC6 (by norm_num [inpC6])
      (by norm_num [V241001.generateGcode, V241001.validCurves,
        V241001.minZ, V241001.maxZ, V241001.zLow, V241001.zHigh,
        V241001.numLayersOf, pyInt, V241001.scopeOf, V241001.speedBandOk,
        V241001.resolveFlux, V241001.densityOf, V241001.indexedCurves,
        V241001.layerKeys, V241001.layerKey, V241001.curvesOfKey,
        V241001.layerSpeed, V241001.curveSpeed, V241001.fluxPair,
        segmentPoints, cumDists, totalLen, normDists, fluxAt,
        V241001.emitSegs, V241001.emitCurve, V241001.runCurves,
        V241001.runLayer, V241001.runLayers, V241001.prepSegs,
        V241001.prepCurve, V241001.prepCurves, V241001.prepLayers,
        V241001.avgSpeed, V241001.startBlock, V241001.endBlock, dist2,
        inpC6, outC6, List.insertionSort, List.orderedInsert, List.dedup,
        V241001.FluxCfg.isLinear, V241001.runCtx, V241001.baseMinZ,
        V241001.idxCurves, V241001.keysOf, V241001.prepOf, V241001.totalOf,
        V241001.runOf]),
    c6_layer_count.2 dist2 pathC6 2000 [1] 1 false out811C6
      (by norm_num [V240811.maxEndZ, pathC6]) (by norm_num)
      (by norm_num [V240811.generate240811, V240811.fluxLenOk,
        V240811.numLayers811, V240811.maxEndZ, pyInt, pathC6,
        V240811.runOf811, V240811.runLayers811, V240811.runLayer811,
        V240811.runCurves811, V240811.emitFluxSegs, V240811.currentFlux811,
        V240811.validCurves811, V240811.keys811, V240811.curvesOfKey811,
        V240811.layerKey811, V240811.startBlock811, V240811.endBlock811,
        segmentPoints, dist2, out811C6, List.insertionSort,
        List.orderedInsert, List.dedup])⟩

/-- C6 counterexample: on a curve set lying at Z = 10 the `v240811`
generator returns 11 layers, while the claimed formula
`⌊(maxZ − minZ)/layerHeight⌋ + 1` gives 1. -/
theorem c6_counterexample :
    (V240811.generate240811 dist2 pathC6 2000 [1] 1 false).map
        (fun o => o.layers) = some 11 ∧
    V241001.maxZ pathC6 = 10 ∧ V241001.minZ pathC6 = 10 ∧
    (⌊((10 : ℚ) - 10) / 1⌋ + 1 : ℤ) = 1 ∧ ((11 : ℤ) ≠ 1) := by
  refine ⟨?_, ?_, ?_, ?_, by norm_num⟩
  · norm_num [V240811.generate240811, V240811.fluxLenOk,
      V240811.numLayers811, V240811.maxEndZ, pyInt, pathC6,
      V240811.runOf811, V240811.runLayers811, V240811.runLayer811,
      V240811.runCurves811, V240811.emitFluxSegs, V240811.currentFlux811,
      V240811.validCurves811, V240811.keys811, V240811.curvesOfKey811,
      V240811.layerKey811, V240811.startBlock811, V240811.endBlock811,
      segmentPoints, dist2, List.insertionSort, List.orderedInsert,
      List.dedup]
  · norm_num [V241001.maxZ, V241001.zHigh, pathC6]
  · norm_num [V241001.minZ, V241001.zLow, pathC6]
  · norm_num

/-- C9 (amended): the `v240720` generator computes
`printingTime = extrusionDistance / printingSpeed +
travelDistance / 12000`, with the rapid speed 12000 a fixed constant
distinct from every validated printing speed.  The `v240811` and `v241001`
generators instead divide the *sum* of extrusion and travel distance by the
printing speed (respectively the average of the resolved speeds): no
separate rapid-travel constant enters their estimate, refuting the original
formula for them (see the counterexample). -/
theorem c9_printing_time :
    (∀ (d : Pt → Pt → ℚ) (K : ℚ) (inp : V241001.GInput)
        (out : V241001.GOutput),
      V241001.generateGcode d K inp = some out →
      ∃ cfg, V241001.resolveFlux inp (V241001.numLayersOf inp)
          (V241001.validCurves inp.printing_path).length = some cfg ∧
        out.printing_path_len = (V241001.prepOf d inp cfg).seg +
          (V241001.prepOf d inp cfg).trav ∧
        out.printing_time = (if out.printing_path_len = 0 then 0
          else out.printing_path_len /
            V241001.avgSpeed inp.printing_speed)) ∧
    (∀ (d : Pt → Pt → ℚ) (path : List GCurve) (v : ℚ) (flux : List ℚ)
        (lh : ℚ) (r : Bool) (out : V241001.GOutput),
      V240811.generate240811 d path v flux lh r = some out →
      out.printing_time =
        (if (V240811.runOf811 d path v flux lh r).2.2.ext +
            (V240811.runOf811 d path v flux lh r).2.2.trav = 0 then 0
          else ((V240811.runOf811 d path v flux lh r).2.2.ext +
            (V240811.runOf811 d path v flux lh r).2.2.trav) / v)) ∧
    (∀ (d : Pt → Pt → ℚ) (path : List GCurve) (v flux : ℚ)
        (out : V240720.Out720),
      V240720.generate240720 d path v flux = some out →
      out.printing_time = (V240720.runOf720 d path v flux).2.2.ext / v +
        (V240720.runOf720 d path v flux).2.2.trav / 12000) ∧
    (∀ v : ℚ, 1800 ≤ v → v ≤ 11000 → V240720.travelSpeed ≠ v) := by
  refine ⟨?_, ?_, ?_, ?_⟩
  · intro d K inp out hgen
    obtain ⟨sc, cfg, _, _, _, hflux, hout⟩ :=
      V241001.generateGcode_some_elim d K inp out hgen
    refine ⟨cfg, hflux, ?_, ?_⟩
    · rw [hout]
      rfl
    · rw [hout]
  · intro d path v flux lh r out hgen
    exact (generate240811_some_elim d path v flux lh r out hgen).2
  · intro d path v flux out hgen
    exact generate240720_some_elim d path v flux out hgen
  · intro v h1 h2
    unfold V240720.travelSpeed
    intro h
    rw [← h] at h2
    norm_num at h2

/-- Concrete two-curve input for the C9 witness and counterexample. -/
def inpC9 : V241001.GInput :=
  ⟨[⟨true, 10, ⟨0, 0, 0⟩, ⟨10, 0, 0⟩, some []⟩,
    ⟨true, 10, ⟨20, 0, 0⟩, ⟨30, 0, 0⟩, some []⟩],
    4, [3000], [1], 1, true, false, false, none, none, some 2000⟩

/-- The output of the `v241001` run on `inpC9`. -/
def outC9 : V241001.GOutput :=
  (V241001.generateGcode dist2 20 inpC9).getD default

/-- One-curve path for the v240811/v240720 halves of the C9 witness. -/
def pathC9 : List GCurve := [⟨true, 10, ⟨0, 0, 0⟩, ⟨10, 0, 0⟩, some []⟩]

/-- The output of the `v240811` run on `pathC9`. -/
def out811C9 : V241001.GOutput :=
  (V240811.generate240811 dist2 pathC9 2000 [1] 1 false).getD default

instance : Inhabited V240720.Out720 := ⟨⟨[], 0, [], 0⟩⟩

/-- The output of the `v240720` run on `pathC9`. -/
def out720C9 : V240720.Out720 :=
  (V240720.generate240720 dist2 pathC9 2000 1).getD default

/-- Witness for C9: all four parts applied at concrete runs. -/
theorem c9_printing_time_witness :
    (∃ cfg, V241001.resolveFlux inpC9 (V241001.numLayersOf inpC9)
        (V241001.validCurves inpC9.printing_path).length = some cfg ∧
      outC9.printing_path_len = (V241001.prepOf dist2 inpC9 cfg).seg +
        (V241001.prepOf dist2 inpC9 cfg).trav ∧
      outC9.printing_time = (if outC9.printing_path_len = 0 then 0
        else outC9.printing_path_len /
          V241001.avgSpeed inpC9.printing_speed)) ∧
    out811C9.printing_time =
      (if (V240811.runOf811 dist2 pathC9 2000 [1] 1 false).2.2.ext +
          (V240811.runOf811 dist2 pathC9 2000 [1] 1 false).2.2.trav = 0
        then 0
        else ((V240811.runOf811 dist2 pathC9 2000 [1] 1 false).2.2.ext +
          (V240811.runOf811 dist2 pathC9 2000 [1] 1 false).2.2.trav) /
            2000) ∧
    out720C9.printing_time =
      (V240720.runOf720 dist2 pathC9 2000 1).2.2.ext / 2000 +
        (V240720.runOf720 dist2 pathC9 2000 1).2.2.trav / 12000 ∧
    V240720.travelSpeed ≠ (2000 : ℚ) :=
  ⟨c9_printing_time.1 dist2 20 inpC9 outC9
      (by norm_num [V241001.generateGcode, V241001.validCurves,
        V241001.minZ, V241001.maxZ, V241001.zLow, V241001.zHigh,
        V241001.numLayersOf, pyInt, V241001.scopeOf, V241001.speedBandOk,
        V241001.resolveFlux, V241001.densityOf, V241001.indexedCurves,
        V241001.layerKeys, V241001.layerKey, V241001.curvesOfKey,
        V241001.layerSpeed, V241001.curveSpeed, V241001.fluxPair,
        segmentPoints, cumDists, totalLen, normDists, fluxAt,
        V241001.emitSegs, V241001.emitCurve, V241001.runCurves,
        V241001.runLayer, V241001.runLayers, V241001.prepSegs,
        V241001.prepCurve, V241001.prepCurves, V241001.prepLayers,
        V241001.avgSpeed, V241001.startBlock, V241001.endBlock, dist2,
        inpC9, outC9, List.insertionSort, List.orderedInsert, List.dedup,
        V241001.FluxCfg.isLinear, V241001.runCtx, V241001.baseMinZ,
        V241001.idxCurves, V241001.keysOf, V241001.prepOf, V241001.totalOf,
        V241001.runOf]),
    (generate240811_some_elim dist2 pathC9 2000 [1] 1 false out811C9
      (by norm_num [V240811.generate240811, V240811.fluxLenOk,
        V240811.numLayers811, V240811.maxEndZ, pyInt, pathC9,
        V240811.runOf811, V240811.runLayers811, V240811.runLayer811,
        V240811.runCurves811, V240811.emitFluxSegs, V240811.currentFlux811,
        V240811.validCurves811, V240811.keys811, V240811.curvesOfKey811,
        V240811.layerKey811, V240811.startBlock811, V240811.endBlock811,
        segmentPoints, dist2, out811C9, List.insertionSort,
        List.orderedInsert, List.dedup])).2,
    c9_printing_time.2.2.1 dist2 pathC9 2000 1 out720C9
      (by norm_num [V240720.generate240720, V240720.runOf720,
        V240720.runCurves720, V240811.emitFluxSegs, V240720.pathLen720,
        V240720.startBlock720, V240720.endBlock720, V240720.travelSpeed,
        segmentPoints, dist2, pathC9, out720C9]),
    c9_printing_time.2.2.2 2000 (by norm_num) (by norm_num)⟩

/-- C9 counterexample: the successful `v241001` run on `inpC9` has extrusion
distance 200, travel distance 100 and printing time `(200 + 100)/3000 =
1/10`; no rapid-travel constant distinct from the printing speed can explain
it, since `1/10 = 200/3000 + 100/r` forces `r = 3000`, the printing speed
itself. -/
theorem c9_counterexample :
    (V241001.generateGcode dist2 20 inpC9).map
      (fun o => (o.printing_time, o.printing_path_len)) =
        some (1 / 10, 300) ∧
    (V241001.prepOf dist2 inpC9
      (V241001.FluxCfg.constant V241001.Scope.global [1])).seg = 200 ∧
    (V241001.prepOf dist2 inpC9
      (V241001.FluxCfg.constant V241001.Scope.global [1])).trav = 100 ∧
    ¬ ∃ r : ℚ, r ≠ 3000 ∧ (1 / 10 : ℚ) = 200 / 3000 + 100 / r := by
  refine ⟨?_, ?_, ?_, ?_⟩
  · norm_num [V241001.generateGcode, V241001.validCurves,
      V241001.minZ, V241001.maxZ, V241001.zLow, V241001.zHigh,
      V241001.numLayersOf, pyInt, V241001.scopeOf, V241001.speedBandOk,
      V241001.resolveFlux, V241001.densityOf, V241001.indexedCurves,
      V241001.layerKeys, V241001.layerKey, V241001.curvesOfKey,
      V241001.layerSpeed, V241001.curveSpeed, V241001.fluxPair,
      segmentPoints, cumDists, totalLen, normDists, fluxAt,
      V241001.emitSegs, V241001.emitCurve, V241001.runCurves,
      V241001.runLayer, V241001.runLayers, V241001.prepSegs,
      V241001.prepCurve, V241001.prepCurves, V241001.prepLayers,
      V241001.avgSpeed, V241001.startBlock, V241001.endBlock, dist2,
      inpC9, List.insertionSort, List.orderedInsert, List.dedup,
      V241001.FluxCfg.isLinear, V241001.runCtx, V241001.baseMinZ,
      V241001.idxCurves, V241001.keysOf, V241001.prepOf, V241001.totalOf,
      V241001.runOf]
  · norm_num [V241001.prepOf, V241001.prepLayers, V241001.prepCurves,
      V241001.prepCurve, V241001.prepSegs, V241001.fluxPair, segmentPoints,
      cumDists, totalLen, normDists, fluxAt, V241001.FluxCfg.isLinear,
      V241001.baseMinZ, V241001.idxCurves, V241001.keysOf,
      V241001.validCurves, V241001.minZ, V241001.maxZ, V241001.zLow,
      V241001.zHigh, V241001.indexedCurves, V241001.layerKeys,
      V241001.layerKey, V241001.curvesOfKey, pyInt, dist2, inpC9,
      List.insertionSort, List.orderedInsert, List.dedup]
  · norm_num [V241001.prepOf, V241001.prepLayers, V241001.prepCurves,
      V241001.prepCurve, V241001.prepSegs, V241001.fluxPair, segmentPoints,
      cumDists, totalLen, normDists, fluxAt, V241001.FluxCfg.isLinear,
      V241001.baseMinZ, V241001.idxCurves, V241001.keysOf,
      V241001.validCurves, V241001.minZ, V241001.maxZ, V241001.zLow,
      V241001.zHigh, V241001.indexedCurves, V241001.layerKeys,
      V241001.layerKey, V241001.curvesOfKey, pyInt, dist2, inpC9,
      List.insertionSort, List.orderedInsert, List.dedup]
  · rintro ⟨r, hr0, heq⟩
    rcases eq_or_ne r 0 with rfl | hr
    · rw [div_zero] at heq
      norm_num at heq
    · have h2 : (100 : ℚ) / r = 1 / 30 := by linarith
      rw [div_eq_div_iff hr (by norm_num)] at h2
      exact hr0 (by linarith)

end Claims

end LDM
